import Mathlib

/-!
# algopeeps: event ingestion, session management and prompt shaping

A shallow embedding of the parts of the repository the verified properties are about:

* `internal/protocol/types.go`: the wire types of an editor buffer event;
* `internal/server/tcp.go`: the per-connection read loop `handleConnection`;
* `internal/opencode/client.go`: the session client (`NewClient`, `EnsureSession`,
  `SendPrompt`, `Close`) and the consumer of the event stream (`SubscribeEvents`,
  `extractAgentName`);
* `internal/tui/app.go`: `handleBufferEvent`, `buildPrompt`, `truncateAroundCursor`, and the
  model with `NewModel`, `Update` and `View`.

Conventions.  A Go `string` is a Lean `String`; `len(s)` is its UTF-8 byte size.  A Go `int`
is an `Int`, and the results of `+` and `-` on values that come from the wire are wrapped to 64
bits with `wrapInt`.  Calls that leave the process (the agent backend, the clock, the JSON
decoder) are parameters of the model, and the model keeps a trace of the calls it makes.
A Go run-time panic is the result `none`.
-/

namespace Algopeeps

/-! ## Go primitives -/

/-- Two's-complement wrap of an exact integer to the range of a 64-bit Go `int`. -/
def wrapInt (x : Int) : Int := (x + 2 ^ 63) % 2 ^ 64 - 2 ^ 63

/-- The values a 64-bit Go `int` can hold. -/
def IsGoInt (x : Int) : Prop := -2 ^ 63 ≤ x ∧ x < 2 ^ 63

/-- Go `error` values: a message, and for errors built with the `%w` verb the wrapped cause. -/
inductive GoError
  | leaf (msg : String)
  | wrapped (msg : String) (cause : GoError)
  deriving DecidableEq, Repr

/-- The method `Error()` of an error value. -/
def GoError.Error : GoError → String
  | .leaf msg => msg
  | .wrapped msg _ => msg

/-- The method `Unwrap()` of an error value. -/
def GoError.Unwrap : GoError → Option GoError
  | .leaf _ => none
  | .wrapped _ cause => some cause

/-- Operands of the formatting functions, by the kinds the program passes. -/
inductive FmtArg
  | str (s : String)
  | int (n : Int)
  | err (e : Option GoError)

/-- The fragment of `fmt.Sprintf` the program uses: the verbs `%s` (string operand), `%d`
(int operand) and `%w` (error operand), each consuming one operand; every other character of
the format is copied.  All format strings of the program stay inside this fragment. -/
def sprintfAux : List Char → List FmtArg → List Char
  | [], _ => []
  | '%' :: 's' :: rest, FmtArg.str s :: args => s.data ++ sprintfAux rest args
  | '%' :: 'd' :: rest, FmtArg.int n :: args => (toString n).data ++ sprintfAux rest args
  | '%' :: 'w' :: rest, FmtArg.err (some e) :: args => e.Error.data ++ sprintfAux rest args
  | '%' :: 'w' :: rest, FmtArg.err none :: args => "%!w(<nil>)".data ++ sprintfAux rest args
  | c :: rest, args => c :: sprintfAux rest args

/-- The function `fmt.Sprintf`. -/
def Sprintf (format : String) (args : List FmtArg) : String :=
  String.mk (sprintfAux format.data args)

/-- The first non-nil error operand, which `%w` makes the cause of the new error. -/
def wrappedOperand : List FmtArg → Option GoError
  | [] => none
  | FmtArg.err (some e) :: _ => some e
  | _ :: args => wrappedOperand args

/-- The function `fmt.Errorf`: the formatted message, wrapping the `%w` operand if there is
one. -/
def Errorf (format : String) (args : List FmtArg) : GoError :=
  match wrappedOperand args with
  | some cause => GoError.wrapped (Sprintf format args) cause
  | none => GoError.leaf (Sprintf format args)

/-- The call `strings.Split(s, "\n")` on the characters of `s`: the pieces between successive
newlines, always at least one piece. -/
def splitNewline : List Char → List (List Char)
  | [] => [[]]
  | c :: cs =>
    if c = '\n' then [] :: splitNewline cs
    else
      match splitNewline cs with
      | [] => [[c]]
      | l :: ls => (c :: l) :: ls

/-- The call `strings.Split(content, "\n")`. -/
def stringsSplit (content : String) : List String :=
  (splitNewline content.data).map String.mk

/-! ## `internal/protocol/types.go` -/

/-- The constants of type `EventType`. -/
def EventTextChanged : String := "text_changed"

/-- See `EventTextChanged`. -/
def EventBufferWrite : String := "buffer_write"

/-- See `EventTextChanged`. -/
def EventBufferEnter : String := "buffer_enter"

/-- The constants of type `MessageType`. -/
def MessageBufferUpdate : String := "buffer_update"

/-- See `MessageBufferUpdate`. -/
def MessagePing : String := "ping"

/-- See `MessageBufferUpdate`. -/
def MessageDisconnect : String := "disconnect"

/-- The struct `Cursor`. -/
structure Cursor where
  Line : Int
  Col : Int
  deriving DecidableEq, Repr

/-- The struct `Buffer`. -/
structure Buffer where
  ID : Int
  Name : String
  Path : String
  Filetype : String
  Cursor : Cursor
  LineCount : Int
  Content : String
  deriving DecidableEq, Repr

/-- The struct `BufferEvent`; the field `Type_` is the field `Type` of the source.  `Type` and
`Event` are string types, so any string can be decoded into them.  The timestamp is kept as
its wire text. -/
structure BufferEvent where
  Type_ : String
  Timestamp : String
  Event : String
  Buffer : Buffer
  deriving DecidableEq, Repr

/-- The method `BufferEvent.Validate`, which accepts every event. -/
def BufferEvent.Validate (_e : BufferEvent) : Option GoError := none

/-! ## `internal/tui/messages.go` -/

/-- The struct `BufferEventMsg`. -/
structure BufferEventMsg where
  Filename : String
  Filetype : String
  CursorLine : Int
  CursorCol : Int
  LineCount : Int
  LastEvent : String
  Content : String
  deriving DecidableEq, Repr

/-- The messages the listener sends to the program: `ConnectionStatusMsg` and
`BufferEventMsg`. -/
inductive TeaMsg
  | connectionStatus (Connected : Bool) (Source : String)
  | bufferEvent (msg : BufferEventMsg)
  deriving DecidableEq, Repr

/-! ## `internal/server/tcp.go` -/

/-- One result of `reader.ReadBytes('\n')`: a whole line, delimiter included, or an error
(end of stream included). -/
inductive Read
  | line (bytes : String)
  | err
  deriving DecidableEq, Repr

/-- What a run of `handleConnection` over a sequence of reads has done: the messages sent to
the program, in order, and whether the function has returned (otherwise it is waiting in
`ReadBytes`). -/
structure ConnState where
  sent : List TeaMsg
  returned : Bool
  deriving DecidableEq, Repr

/-- The message `handleConnection` builds from a decoded event (lines 109 to 117). -/
def bufferEventMsgOf (event : BufferEvent) : BufferEventMsg :=
  { Filename := event.Buffer.Name
    Filetype := event.Buffer.Filetype
    CursorLine := event.Buffer.Cursor.Line
    CursorCol := event.Buffer.Cursor.Col
    LineCount := event.Buffer.LineCount
    LastEvent := event.Event
    Content := event.Buffer.Content }

/-- The method `Server.handleConnection` on the successive results of `ReadBytes`.
`unmarshal` is `json.Unmarshal` into a fresh `BufferEvent` (`none` for an error) and
`program` tells whether `s.program` is set.  A read error returns and runs the deferred
function, which sends the disconnect status. -/
def handleConnection (unmarshal : String → Option BufferEvent) (program : Bool) :
    List Read → ConnState
  | [] => { sent := [], returned := false }
  | Read.err :: _ =>
    { sent := if program then [TeaMsg.connectionStatus false "nvim"] else []
      returned := true }
  | Read.line bytes :: rest =>
    match unmarshal bytes with
    | none => handleConnection unmarshal program rest
    | some event =>
      let after := handleConnection unmarshal program rest
      { sent := (if program then [TeaMsg.bufferEvent (bufferEventMsgOf event)] else [])
          ++ after.sent
        returned := after.returned }

/-- The buffer-event messages among the messages sent to the program. -/
def bufferEventsOf : List TeaMsg → List BufferEventMsg
  | [] => []
  | TeaMsg.bufferEvent msg :: rest => msg :: bufferEventsOf rest
  | TeaMsg.connectionStatus _ _ :: rest => bufferEventsOf rest

/-! ## `internal/opencode/client.go` -/

/-- The struct `Config`. -/
structure Config where
  BaseURL : String
  deriving DecidableEq, Repr

/-- The function `DefaultConfig`. -/
def DefaultConfig : Config := { BaseURL := "http://localhost:4096" }

/-- The fields of `Client` the methods read and write; `cancelled` tells whether the cancel
function of the client context has been called. -/
structure Client where
  config : Config
  sessionID : String
  connected : Bool
  cancelled : Bool
  deriving DecidableEq, Repr

/-- The function `NewClient`, which cannot fail. -/
def NewClient (cfg : Config) : Client :=
  let cfg := if cfg.BaseURL = "" then { cfg with BaseURL := DefaultConfig.BaseURL } else cfg
  { config := cfg, sessionID := "", connected := false, cancelled := false }

/-- The result of `sdk.Session.New`: the id of the new session, or an error. -/
inductive NewResult
  | ok (id : String)
  | fail (err : GoError)
  deriving DecidableEq, Repr

/-- The agent backend and the clock, as a state machine with an arbitrary state: what each
call answers in a state (an error or success) and the state it leaves. -/
structure Backend (σ : Type) where
  sessionGet : σ → String → Option GoError × σ
  sessionNew : σ → String → NewResult × σ
  sessionPrompt : σ → String → String → List String → Option GoError × σ
  sleep : σ → Nat → σ
  today : σ → String
  cancel : σ → σ

/-- One interaction with the outside, with its answer. -/
inductive Call
  | sessionGet (id : String) (err : Option GoError)
  | sessionNew (title : String) (res : NewResult)
  | sessionPrompt (id agent : String) (parts : List String) (err : Option GoError)
  | sleep (nanoseconds : Nat)
  deriving DecidableEq, Repr

/-- The state of the outside and the interactions so far, oldest first. -/
structure World (σ : Type) where
  state : σ
  trace : List Call

/-- The call `c.sdk.Session.Get(c.ctx, id, ...)`. -/
def World.sessionGet {σ : Type} (B : Backend σ) (w : World σ) (id : String) :
    Option GoError × World σ :=
  let r := B.sessionGet w.state id
  (r.1, { state := r.2, trace := w.trace ++ [Call.sessionGet id r.1] })

/-- The call `c.sdk.Session.New(c.ctx, ...)` with the given title. -/
def World.sessionNew {σ : Type} (B : Backend σ) (w : World σ) (title : String) :
    NewResult × World σ :=
  let r := B.sessionNew w.state title
  (r.1, { state := r.2, trace := w.trace ++ [Call.sessionNew title r.1] })

/-- The call `c.sdk.Session.Prompt(c.ctx, id, params)`. -/
def World.sessionPrompt {σ : Type} (B : Backend σ) (w : World σ) (id agent : String)
    (parts : List String) : Option GoError × World σ :=
  let r := B.sessionPrompt w.state id agent parts
  (r.1, { state := r.2, trace := w.trace ++ [Call.sessionPrompt id agent parts r.1] })

/-- The call `time.Sleep(d)`. -/
def World.sleep {σ : Type} (B : Backend σ) (w : World σ) (d : Nat) : World σ :=
  { state := B.sleep w.state d, trace := w.trace ++ [Call.sleep d] }

/-- The constant `maxRetries` of `EnsureSession`. -/
def maxRetries : Nat := 3

/-- The constant `retryDelay` of `EnsureSession`: `time.Second`, in nanoseconds. -/
def retryDelay : Nat := 1000000000

/-- How the creation loop of `EnsureSession` was left. -/
structure LoopExit (σ : Type) where
  returned : Bool
  lastErr : Option GoError
  client : Client
  world : World σ

/-- One creation attempt, the body of the loop of `EnsureSession` up to the call of
`Session.New` in iteration `i`: the delay if `i > 0`, the title from the date, the call. -/
def attempt {σ : Type} (B : Backend σ) (i : Nat) (w : World σ) : NewResult × World σ :=
  let w := if i > 0 then w.sleep B retryDelay else w
  let title := Sprintf "Algopeeps Council - %s" [FmtArg.str (B.today w.state)]
  w.sessionNew B title

/-- The loop `for i := 0; i < maxRetries; i++` of `EnsureSession`, from iteration `i` on; the
first argument is the number of iterations left, `maxRetries - i`. -/
def createLoop {σ : Type} (B : Backend σ) :
    Nat → Nat → Option GoError → Client → World σ → LoopExit σ
  | 0, _, lastErr, c, w => { returned := false, lastErr := lastErr, client := c, world := w }
  | remaining + 1, i, lastErr, c, w =>
    let r := attempt B i w
    match r.1 with
    | NewResult.fail err => createLoop B remaining (i + 1) (some err) c r.2
    | NewResult.ok id =>
      { returned := true, lastErr := lastErr
        client := { c with sessionID := id, connected := true }, world := r.2 }

/-- What a method of the client returns and leaves behind. -/
structure Outcome (σ : Type) where
  err : Option GoError
  client : Client
  world : World σ

/-- The second half of `EnsureSession`, from the declaration of `lastErr` on. -/
def createSession {σ : Type} (B : Backend σ) (c : Client) (w : World σ) : Outcome σ :=
  let x := createLoop B maxRetries 0 none c w
  if x.returned then { err := none, client := x.client, world := x.world }
  else
    { err := some (Errorf "failed to create session after %d retries: %w"
        [FmtArg.int maxRetries, FmtArg.err x.lastErr])
      client := { x.client with connected := false }
      world := x.world }

/-- The method `Client.EnsureSession`. -/
def EnsureSession {σ : Type} (B : Backend σ) (c : Client) (w : World σ) : Outcome σ :=
  if c.sessionID ≠ "" then
    let r := w.sessionGet B c.sessionID
    match r.1 with
    | none => { err := none, client := { c with connected := true }, world := r.2 }
    | some _ => createSession B { c with sessionID := "", connected := false } r.2
  else createSession B c w

/-- The method `Client.IsConnected`. -/
def IsConnected (c : Client) : Bool := c.connected

/-- The method `Client.SessionID`. -/
def SessionID (c : Client) : String := c.sessionID

/-- The method `Client.SendPrompt`. -/
def SendPrompt {σ : Type} (B : Backend σ) (agent prompt : String) (c : Client)
    (w : World σ) : Outcome σ :=
  if c.sessionID = "" then
    { err := some (Errorf "no session available, call EnsureSession first" [])
      client := c, world := w }
  else
    let r := w.sessionPrompt B c.sessionID agent [prompt]
    match r.1 with
    | some err =>
      { err := some (Errorf "failed to send prompt: %w" [FmtArg.err (some err)])
        client := c, world := r.2 }
    | none => { err := none, client := c, world := r.2 }

/-- The method `Client.Close`: cancels the client context. -/
def Close {σ : Type} (B : Backend σ) (c : Client) (w : World σ) : Outcome σ :=
  { err := none, client := { c with cancelled := true }
    world := { w with state := B.cancel w.state } }

/-- The calls a user of the client can make. -/
inductive ClientOp
  | ensureSession
  | sendPrompt (agent prompt : String)
  | close
  deriving DecidableEq, Repr

/-- One call on the client. -/
def applyOp {σ : Type} (B : Backend σ) (cw : Client × World σ) (op : ClientOp) :
    Client × World σ :=
  match op with
  | ClientOp.ensureSession =>
    ((EnsureSession B cw.1 cw.2).client, (EnsureSession B cw.1 cw.2).world)
  | ClientOp.sendPrompt agent prompt =>
    ((SendPrompt B agent prompt cw.1 cw.2).client, (SendPrompt B agent prompt cw.1 cw.2).world)
  | ClientOp.close => ((Close B cw.1 cw.2).client, (Close B cw.1 cw.2).world)

/-- A sequence of calls on the client, in order. -/
def runOps {σ : Type} (B : Backend σ) (ops : List ClientOp) (cw : Client × World σ) :
    Client × World σ :=
  ops.foldl (applyOp B) cw

/-! ## `internal/tui/app.go` -/

/-- The banner `fmt.Sprintf("[...%d lines omitted...]\n", n)`. -/
def omittedBanner (n : Int) : String :=
  Sprintf "[...%d lines omitted...]\n" [FmtArg.int n]

/-- The index expression `lines[i]`; `none` is the index-out-of-range panic. -/
def lineAt (lines : List String) (i : Int) : Option String :=
  if 0 ≤ i then lines.get? i.toNat else none

/-- The value of `start` in `truncateAroundCursor` (lines 167 to 170). -/
def windowStart (cursorLine contextLines : Int) : Int :=
  let start := wrapInt (cursorLine - contextLines)
  if start < 0 then 0 else start

/-- The value of `end` in `truncateAroundCursor` (lines 171 to 174). -/
def windowStop (cursorLine contextLines totalLines : Int) : Int :=
  let stop := wrapInt (cursorLine + contextLines)
  if stop > totalLines then totalLines else stop

/-- The loop `for i := start; i < end; i++` of `truncateAroundCursor`, from index `i` on with
the text written so far; the first argument bounds the iterations.  The increment cannot
overflow, since `i < end` and `end` is an `int`.  The result is `none` for a panic and when the
bound is too small. -/
def writeLines (lines : List String) (stop : Int) : Nat → Int → String → Option String
  | 0, i, result => if i < stop then none else some result
  | fuel + 1, i, result =>
    if i < stop then
      match lineAt lines i with
      | none => none
      | some l => writeLines lines stop fuel (i + 1) ((result ++ l) ++ "\n")
    else some result

/-- The method `Model.truncateAroundCursor`. -/
def truncateAroundCursor (content : String) (cursorLine contextLines : Int) : Option String :=
  let lines := stringsSplit content
  let totalLines : Int := lines.length
  let start := windowStart cursorLine contextLines
  let stop := windowStop cursorLine contextLines totalLines
  let result := ""
  let result := if start > 0 then result ++ omittedBanner start else result
  match writeLines lines stop (stop - start).toNat start result with
  | none => none
  | some result =>
    let result :=
      if stop < totalLines then result ++ omittedBanner (wrapInt (totalLines - stop))
      else result
    some result

/-- The method `Model.buildPrompt`. -/
def buildPrompt (path filetype : String) (line col : Int) (eventType content : String) :
    String :=
  Sprintf ("You are watching a live coding session. The user is editing:\n"
      ++ "File: %s (%s)\n"
      ++ "Cursor: line %d, col %d\n"
      ++ "\n"
      ++ "Current buffer content:\n"
      ++ "`" ++ "%s\n"
      ++ "%s\n"
      ++ "`" ++ "\n"
      ++ "\n"
      ++ "Event: %s\n"
      ++ "\n"
      ++ "Provide brief, actionable observations (2-3 sentences max).")
    [FmtArg.str path, FmtArg.str filetype, FmtArg.int line, FmtArg.int col,
      FmtArg.str filetype, FmtArg.str content, FmtArg.str eventType]

/-- The constant `maxSize` of `handleBufferEvent`. -/
def maxSize : Nat := 100 * 1024

/-- How `handleBufferEvent` ended: it returned because no session could be ensured, it
panicked, or it built the prompt, set the thinking flag of the listed agents and started one
`SendPrompt` per listed pair of agent and prompt. -/
inductive HandleResult
  | ensureFailed
  | panicked
  | dispatched (prompt : String) (thinking : List String) (sends : List (String × String))
  deriving DecidableEq, Repr

/-- The content `handleBufferEvent` passes to `buildPrompt` (lines 121 to 126). -/
def shapedContent (msg : BufferEventMsg) : Option String :=
  let content := msg.Content
  if content.utf8ByteSize > maxSize then truncateAroundCursor content msg.CursorLine 50
  else some content

/-- The method `Model.handleBufferEvent` on the client of the model. -/
def handleBufferEvent {σ : Type} (B : Backend σ) (c : Client) (w : World σ)
    (msg : BufferEventMsg) : HandleResult × Client × World σ :=
  let r := EnsureSession B c w
  match r.err with
  | some _ => (HandleResult.ensureFailed, r.client, r.world)
  | none =>
    match shapedContent msg with
    | none => (HandleResult.panicked, r.client, r.world)
    | some content =>
      let prompt := buildPrompt msg.Filename msg.Filetype msg.CursorLine msg.CursorCol
        msg.LastEvent content
      (HandleResult.dispatched prompt ["code-reviewer", "bug-spotter"]
        [("code-reviewer", prompt), ("bug-spotter", prompt)], r.client, r.world)

/-! ## `internal/opencode/client.go`: the event stream -/

/-- The struct `AgentTextMsg` of the package `opencode`. -/
structure AgentTextMsg where
  Agent : String
  Text : String
  deriving DecidableEq, Repr

/-- The struct `AgentIdleMsg` of the package `opencode`. -/
structure AgentIdleMsg where
  Agent : String
  deriving DecidableEq, Repr

/-- The messages `SubscribeEvents` sends to the program. -/
inductive AgentMsg
  | text (msg : AgentTextMsg)
  | idle (msg : AgentIdleMsg)
  deriving DecidableEq, Repr

/-- The dynamic value held by the field `Source` of a part of the backend SDK: an
`AgentPartSource` with its field `Value`, or a value of any other type. -/
inductive PartSource
  | agentPartSource (Value : String)
  | otherSource
  deriving DecidableEq, Repr

/-- The field of the SDK struct `Part` that is read: `Source`, with `none` for nil. -/
structure Part where
  Source : Option PartSource
  deriving DecidableEq, Repr

/-- The values of the field `Type` of a stream event that the consumer tells apart: the SDK
constants `EventListResponseTypeMessagePartUpdated` and `EventListResponseTypeSessionIdle`,
and every other value. -/
inductive EventListResponseType
  | messagePartUpdated
  | sessionIdle
  | otherType
  deriving DecidableEq, Repr

/-- The result of `event.AsUnion()`: an `EventListResponseEventMessagePartUpdated` with its
`Properties.Part` and `Properties.Delta`, an `EventListResponseEventSessionIdle` with its
`Properties.SessionID`, or a value of any other type. -/
inductive EventUnion
  | messagePartUpdated (part : Part) (delta : String)
  | sessionIdle (sessionID : String)
  | otherUnion
  deriving DecidableEq, Repr

/-- A stream event of the SDK, `EventListResponse`: the field `Type`, here `Type_`, and the
value `AsUnion()` returns. -/
structure EventListResponse where
  Type_ : EventListResponseType
  union : EventUnion
  deriving DecidableEq, Repr

/-- The method `Client.extractAgentName`. -/
def extractAgentName (part : Part) : String :=
  match part.Source with
  | none => "unknown"
  | some source =>
    match source with
    | PartSource.agentPartSource value => value
    | PartSource.otherSource => "unknown"

/-- The body of the loop of `SubscribeEvents` for one event: the messages it sends to the
program, in order. -/
def onStreamEvent (c : Client) (event : EventListResponse) : List AgentMsg :=
  match event.Type_ with
  | EventListResponseType.messagePartUpdated =>
    match event.union with
    | EventUnion.messagePartUpdated part delta =>
      let agentName := extractAgentName part
      if delta ≠ "" then [AgentMsg.text { Agent := agentName, Text := delta }] else []
    | _ => []
  | EventListResponseType.sessionIdle =>
    match event.union with
    | EventUnion.sessionIdle sessionID =>
      if sessionID = c.sessionID then
        [AgentMsg.idle { Agent := "code-reviewer" }, AgentMsg.idle { Agent := "bug-spotter" }]
      else []
    | _ => []
  | EventListResponseType.otherType => []

/-- The loop `for stream.Next()` of `SubscribeEvents` over the events the stream yields. -/
def streamLoop (c : Client) : List EventListResponse → List AgentMsg
  | [] => []
  | event :: rest => onStreamEvent c event ++ streamLoop c rest

/-- The method `Client.SubscribeEvents` on the events the stream yields before it ends and
the value of `stream.Err()` at its end: the error returned and the messages sent. -/
def SubscribeEvents (c : Client) (events : List EventListResponse)
    (streamErr : Option GoError) : Option GoError × List AgentMsg :=
  if c.sessionID = "" then
    (some (Errorf "no session available, call EnsureSession first" []), [])
  else
    let sent := streamLoop c events
    match streamErr with
    | some err => (some (Errorf "stream error: %w" [FmtArg.err (some err)]), sent)
    | none => (none, sent)

/-! ## `internal/tui/components` and the model of `internal/tui/app.go` -/

/-- The struct `AgentCard`, without its colour. -/
structure AgentCard where
  Name : String
  Emoji : String
  Output : String
  Thinking : Bool
  deriving DecidableEq, Repr

/-- The struct `SummaryBar`. -/
structure SummaryBar where
  Filename : String
  Filetype : String
  CursorLine : Int
  CursorCol : Int
  LineCount : Int
  LastEvent : String
  deriving DecidableEq, Repr

/-- The text `AgentCard.Render` puts under the title of a card. -/
def AgentCard.content (a : AgentCard) : String :=
  if a.Thinking then "Thinking..." else a.Output

/-- A Go map with string keys: `none` is the nil map, and a map is the function from a key
to its value, the zero value for a key that is absent. -/
abbrev GoMap (α : Type) : Type := Option (String → α)

/-- The expression `m[k]`, which on a nil map is the zero value. -/
def GoMap.get {α : Type} (zero : α) (m : GoMap α) (k : String) : α :=
  match m with
  | none => zero
  | some f => f k

/-- The map after `m[k] = v`. -/
def setKey {α : Type} (f : String → α) (k : String) (v : α) : String → α :=
  fun key => if key = k then v else f key

/-- The struct `Model`; `ocClient` is the client the pointer refers to, `none` for nil. -/
structure Model where
  width : Int
  height : Int
  ready : Bool
  agents : GoMap String
  agentThinking : GoMap Bool
  nvimConnected : Bool
  openCodeConnected : Bool
  ocClient : Option Client
  bufferFilename : String
  bufferFiletype : String
  bufferLine : Int
  bufferCol : Int
  bufferLines : Int
  lastEvent : String
  lastError : String

/-- The function `NewModel`; `opencode.NewClient` returns no error. -/
def NewModel : Model :=
  { width := 0, height := 0, ready := false
    agents := some (fun _ => "")
    agentThinking := some (fun _ => false)
    nvimConnected := false, openCodeConnected := false
    ocClient := some (NewClient DefaultConfig)
    bufferFilename := "", bufferFiletype := "", bufferLine := 0, bufferCol := 0
    bufferLines := 0, lastEvent := "", lastError := "" }

/-- The messages `Update` receives, by their dynamic type; `otherMsg` is a message of any
type without a case in the switch. -/
inductive Msg
  | keyMsg (key : String)
  | windowSizeMsg (Width Height : Int)
  | connectionStatusMsg (Connected : Bool) (Source : String)
  | errorMsg (Error : Option GoError) (Context : String)
  | agentTextMsg (msg : AgentTextMsg)
  | agentIdleMsg (msg : AgentIdleMsg)
  | bufferEventMsg (msg : BufferEventMsg)
  | otherMsg

/-- What `Update` returns and starts: the model, the world after a call of `Close`, whether
the command returned is `tea.Quit`, and the messages for which a `handleBufferEvent`
goroutine was started. -/
structure UpdateResult (σ : Type) where
  model : Model
  world : World σ
  quit : Bool
  started : List BufferEventMsg

/-- The method `Model.Update`; `none` is the panic of an assignment to an entry of a nil
map.  The text of an error message is `fmt.Sprintf("%s: %v", msg.Context, msg.Error)`. -/
def Update {σ : Type} (B : Backend σ) (m : Model) (w : World σ) (msg : Msg) :
    Option (UpdateResult σ) :=
  match msg with
  | Msg.keyMsg key =>
    if key = "q" ∨ key = "ctrl+c" then
      match m.ocClient with
      | some c =>
        some { model := { m with ocClient := some (Close B c w).client }
               world := (Close B c w).world, quit := true, started := [] }
      | none => some { model := m, world := w, quit := true, started := [] }
    else some { model := m, world := w, quit := false, started := [] }
  | Msg.windowSizeMsg width height =>
    some { model := { m with width := width, height := height, ready := true }
           world := w, quit := false, started := [] }
  | Msg.connectionStatusMsg connected source =>
    if source = "nvim" then
      some { model := { m with nvimConnected := connected }
             world := w, quit := false, started := [] }
    else if source = "opencode" then
      some { model := { m with openCodeConnected := connected }
             world := w, quit := false, started := [] }
    else some { model := m, world := w, quit := false, started := [] }
  | Msg.errorMsg error context =>
    let text := match error with
      | some e => e.Error
      | none => "<nil>"
    some { model := { m with lastError := context ++ ": " ++ text }
           world := w, quit := false, started := [] }
  | Msg.agentTextMsg msg =>
    let agents : String → String := match m.agents with
      | none => fun _ => ""
      | some f => f
    let agents := setKey agents msg.Agent (agents msg.Agent ++ msg.Text)
    match m.agentThinking with
    | none => none
    | some thinking =>
      some { model := { m with agents := some agents
                               agentThinking := some (setKey thinking msg.Agent false) }
             world := w, quit := false, started := [] }
  | Msg.agentIdleMsg msg =>
    match m.agentThinking with
    | none => none
    | some thinking =>
      some { model := { m with agentThinking := some (setKey thinking msg.Agent false) }
             world := w, quit := false, started := [] }
  | Msg.bufferEventMsg msg =>
    some { model := { m with bufferFilename := msg.Filename, bufferFiletype := msg.Filetype
                             bufferLine := msg.CursorLine, bufferCol := msg.CursorCol
                             bufferLines := msg.LineCount, lastEvent := msg.LastEvent }
           world := w, quit := false
           started := if m.ocClient.isSome then [msg] else [] }
  | Msg.otherMsg => some { model := m, world := w, quit := false, started := [] }

/-- The session part of the status bar in `View`: no session, or the first eight bytes of
the session id. -/
inductive SessionInfo
  | noSession
  | session (idBytes : List Nat)
  deriving DecidableEq, Repr

/-- What `View` hands to the renderer once the model is ready: the two agent cards, the
summary bar, the two connection flags, the session part and the last error.  Widths, colours
and the layout of the rendered string are left to the renderer. -/
structure Screen where
  reviewerCard : AgentCard
  bugSpotterCard : AgentCard
  summaryBar : SummaryBar
  nvimConnected : Bool
  openCodeConnected : Bool
  sessionInfo : SessionInfo
  lastError : String
  deriving DecidableEq, Repr

/-- The two results of `View`: the text `Loading...` or a screen. -/
inductive ViewResult
  | loading
  | screen (s : Screen)
  deriving DecidableEq, Repr

/-- The UTF-8 bytes of a string. -/
def utf8Bytes (s : String) : List Nat :=
  s.data.flatMap (fun ch => (String.utf8EncodeChar ch).map UInt8.toNat)

/-- The method `Model.View`; `none` is the panic of the slice `SessionID()[:8]` on an id
shorter than eight bytes. -/
def View (m : Model) : Option ViewResult :=
  if !m.ready then some ViewResult.loading
  else
    let reviewerCard : AgentCard :=
      { Name := "Code Reviewer", Emoji := "🔍"
        Output := GoMap.get "" m.agents "code_reviewer"
        Thinking := GoMap.get false m.agentThinking "code-reviewer" }
    let bugSpotterCard : AgentCard :=
      { Name := "Bug Spotter", Emoji := "🐛"
        Output := GoMap.get "" m.agents "bug_spotter"
        Thinking := GoMap.get false m.agentThinking "bug-spotter" }
    let summaryBar : SummaryBar :=
      { Filename := m.bufferFilename, Filetype := m.bufferFiletype
        CursorLine := m.bufferLine, CursorCol := m.bufferCol
        LineCount := m.bufferLines, LastEvent := m.lastEvent }
    let sessionInfo : Option SessionInfo :=
      match m.ocClient with
      | none => some SessionInfo.noSession
      | some c =>
        if SessionID c ≠ "" then
          if (utf8Bytes (SessionID c)).length < 8 then none
          else some (SessionInfo.session ((utf8Bytes (SessionID c)).take 8))
        else some SessionInfo.noSession
    match sessionInfo with
    | none => none
    | some info =>
      some (ViewResult.screen
        { reviewerCard := reviewerCard, bugSpotterCard := bugSpotterCard
          summaryBar := summaryBar, nvimConnected := m.nvimConnected
          openCodeConnected := m.openCodeConnected, sessionInfo := info
          lastError := m.lastError })

/-- A run of `Update` over successive messages, `none` once a call panics. -/
def updateAll {σ : Type} (B : Backend σ) : List Msg → Model → World σ → Option Model
  | [], m, _ => some m
  | msg :: rest, m, w =>
    match Update B m w msg with
    | none => none
    | some r => updateAll B rest r.model r.world

/-! ## Vocabulary of the properties -/

/-- The given lines, each followed by a newline, one after the other. -/
def concatLines : List String → String
  | [] => ""
  | l :: ls => (l ++ "\n") ++ concatLines ls

/-- The lines whose index `i` satisfies `lo ≤ i < hi`, in increasing index order. -/
def selectLines (lines : List String) (lo hi : Int) : List String :=
  (lines.enum.filter (fun p => decide (lo ≤ (p.1 : Int) ∧ (p.1 : Int) < hi))).map Prod.snd

/-- The enumerated message kinds. -/
def knownMessageTypes : List String := [MessageBufferUpdate, MessagePing, MessageDisconnect]

/-- The enumerated event kinds. -/
def knownEventTypes : List String := [EventTextChanged, EventBufferWrite, EventBufferEnter]

/-! ## Inputs used to exercise the theorems -/

/-- Five short lines. -/
def sampleContent : String := "alpha\nbeta\ngamma\ndelta\nepsilon"

/-- One line of 102401 bytes, one byte more than the size threshold. -/
def oneLongLine : String := String.mk (List.replicate 102401 'a')

/-- The 102 lines `0`, `1`, ..., `101`. -/
def numberedLines : String := String.intercalate "\n" ((List.range 102).map toString)

/-- An event of the enumerated kinds, whose buffer name and path differ. -/
def sampleEvent : BufferEvent :=
  { Type_ := "buffer_update", Timestamp := "2026-01-15T10:00:00Z", Event := "text_changed"
    Buffer :=
      { ID := 1, Name := "main.go", Path := "/home/dev/project/cmd/main.go", Filetype := "go"
        Cursor := { Line := 3, Col := 0 }, LineCount := 42, Content := "package main" } }

/-- An event whose message kind and event kind are outside the enumerated values. -/
def futureEvent : BufferEvent :=
  { Type_ := "telemetry", Timestamp := "2026-01-15T10:00:01Z", Event := "cursor_moved"
    Buffer :=
      { ID := 2, Name := "notes.md", Path := "/home/dev/notes.md", Filetype := "markdown"
        Cursor := { Line := 0, Col := 7 }, LineCount := 1, Content := "todo" } }

/-- A stand-in for the JSON decoder on three lines: one decodes to `sampleEvent`, one to
`futureEvent`, and everything else is rejected. -/
def sampleUnmarshal (bytes : String) : Option BufferEvent :=
  if bytes = "sample\n" then some sampleEvent
  else if bytes = "future\n" then some futureEvent
  else none

/-- A backend on which every probe and every creation fails; the state counts the calls. -/
def failingBackend : Backend Nat :=
  { sessionGet := fun s _ => (some (GoError.leaf "session not found"), s + 1)
    sessionNew := fun s _ =>
      (NewResult.fail (GoError.leaf ("connection refused, call " ++ toString s)), s + 1)
    sessionPrompt := fun s _ _ _ => (some (GoError.leaf "connection refused"), s + 1)
    sleep := fun s _ => s
    today := fun _ => "2026-01-15"
    cancel := fun s => s }

/-- A backend on which every call succeeds and creation returns a non-empty id. -/
def healthyBackend : Backend Nat :=
  { sessionGet := fun s _ => (none, s + 1)
    sessionNew := fun s _ => (NewResult.ok "ses_0001", s + 1)
    sessionPrompt := fun s _ _ _ => (none, s + 1)
    sleep := fun s _ => s
    today := fun _ => "2026-01-15"
    cancel := fun s => s }

/-- A backend whose creation call succeeds with an empty session id. -/
def emptyIdBackend : Backend Nat :=
  { sessionGet := fun s _ => (none, s + 1)
    sessionNew := fun s _ => (NewResult.ok "", s + 1)
    sessionPrompt := fun s _ _ _ => (none, s + 1)
    sleep := fun s _ => s
    today := fun _ => "2026-01-15"
    cancel := fun s => s }

/-- The world before any call. -/
def freshWorld : World Nat := { state := 0, trace := [] }

/-- A client that holds the id of an earlier session. -/
def staleClient : Client :=
  { config := DefaultConfig, sessionID := "ses_old", connected := true, cancelled := false }

/-- A content of exactly 102400 bytes, the size threshold. -/
def thresholdContent : String := String.mk (List.replicate 102400 'a')

/-- A buffer event message whose content has exactly the threshold size. -/
def thresholdMsg : BufferEventMsg :=
  { Filename := "big.txt", Filetype := "text", CursorLine := 0, CursorCol := 0
    LineCount := 1, LastEvent := "buffer_write", Content := thresholdContent }

/-- A buffer event message whose content is one byte above the threshold. -/
def oversizeMsg : BufferEventMsg :=
  { Filename := "big.txt", Filetype := "text", CursorLine := 0, CursorCol := 0
    LineCount := 1, LastEvent := "buffer_write", Content := oneLongLine }

/-- The text of the prompt around a file designation, a file type, a cursor position, a
content and an event kind, as the specification describes the template. -/
def promptText (file filetype : String) (line col : Int) (content eventKind : String) :
    String :=
  "You are watching a live coding session. The user is editing:\nFile: " ++ file ++ " ("
    ++ filetype ++ ")\nCursor: line " ++ toString line ++ ", col " ++ toString col
    ++ "\n\nCurrent buffer content:\n`" ++ filetype ++ "\n" ++ content ++ "\n`\n\nEvent: "
    ++ eventKind ++ "\n\nProvide brief, actionable observations (2-3 sentences max)."

/-- A client that holds the id of a live session. -/
def liveClient : Client :=
  { config := DefaultConfig, sessionID := "ses_0001", connected := true, cancelled := false }

/-- A part whose source is the agent source with the value `code-reviewer`. -/
def reviewerPart : Part := { Source := some (PartSource.agentPartSource "code-reviewer") }

/-- Events of the stream: a part update from the reviewer, an update with an empty delta, an
update without a source, an event of another kind, an idle event of another session and an
idle event of the held session. -/
def sampleStream : List EventListResponse :=
  [{ Type_ := EventListResponseType.messagePartUpdated
     union := EventUnion.messagePartUpdated reviewerPart "Looks fine." },
   { Type_ := EventListResponseType.messagePartUpdated
     union := EventUnion.messagePartUpdated reviewerPart "" },
   { Type_ := EventListResponseType.messagePartUpdated
     union := EventUnion.messagePartUpdated { Source := none } "anonymous" },
   { Type_ := EventListResponseType.otherType, union := EventUnion.otherUnion },
   { Type_ := EventListResponseType.sessionIdle, union := EventUnion.sessionIdle "ses_9999" },
   { Type_ := EventListResponseType.sessionIdle, union := EventUnion.sessionIdle "ses_0001" }]

/-- The messages of a short session of the interface: the window size, then one text from
each agent under the name its prompts are addressed to. -/
def agentTexts : List Msg :=
  [Msg.windowSizeMsg 120 40,
   Msg.agentTextMsg { Agent := "code-reviewer", Text := "Looks fine." },
   Msg.agentTextMsg { Agent := "bug-spotter", Text := "Possible nil dereference." }]

/-! ## The excerpt of `truncateAroundCursor` -/

theorem windowStart_nonneg (c w : Int) : 0 ≤ windowStart c w := by
  unfold windowStart
  simp only
  split <;> omega

theorem windowStop_le (c w L : Int) : windowStop c w L ≤ L := by
  unfold windowStop
  simp only
  split <;> omega

/-- The loop writes the lines from `i` up to `stop`, given enough iterations. -/
theorem writeLines_eq (lines : List String) (stop : Int) (hstop : stop ≤ lines.length) :
    ∀ (fuel : Nat) (i : Int) (result : String), 0 ≤ i → (stop - i).toNat ≤ fuel →
      writeLines lines stop fuel i result
        = some (result ++ concatLines ((lines.drop i.toNat).take (stop - i).toNat)) := by
  intro fuel
  induction fuel with
  | zero =>
    intro i result hi hf
    have h0 : (stop - i).toNat = 0 := by omega
    have : ¬ i < stop := by omega
    simp [writeLines, this, h0, concatLines]
  | succ n ih =>
    intro i result hi hf
    by_cases hlt : i < stop
    · have hidx : i.toNat < lines.length := by omega
      have hget : lineAt lines i = some (lines.get ⟨i.toNat, hidx⟩) := by
        simp [lineAt, hi, List.getElem?_eq_getElem hidx]
      have hcnt : (stop - i).toNat = (stop - (i + 1)).toNat + 1 := by omega
      have hdrop : lines.drop i.toNat
          = lines.get ⟨i.toNat, hidx⟩ :: lines.drop (i + 1).toNat := by
        have : (i + 1).toNat = i.toNat + 1 := by omega
        rw [this]
        exact (List.drop_eq_getElem_cons hidx)
      rw [writeLines, if_pos hlt, hget]
      simp only
      rw [ih (i + 1) _ (by omega) (by omega), hcnt, hdrop, List.take_succ_cons, concatLines]
      simp [String.append_assoc]
    · have h0 : (stop - i).toNat = 0 := by omega
      simp [writeLines, hlt, h0, concatLines]

/-- Selecting by index from an enumeration that starts at `k` is a drop followed by a take. -/
theorem selectFrom_eq (lo hi : Int) : ∀ (l : List String) (k : Nat),
    ((l.enumFrom k).filter (fun p => decide (lo ≤ (p.1 : Int) ∧ (p.1 : Int) < hi))).map Prod.snd
      = (l.drop (lo.toNat - k)).take (hi - max lo k).toNat := by
  intro l
  induction l with
  | nil => intro k; simp
  | cons x xs ih =>
    intro k
    rw [List.enumFrom_cons, List.filter_cons]
    by_cases h1 : lo ≤ (k : Int) ∧ (k : Int) < hi
    · have e1 : lo.toNat - k = 0 := by omega
      have e2 : (hi - max lo (k : Int)).toNat
          = (hi - max lo ((k + 1 : Nat) : Int)).toNat + 1 := by omega
      have e3 : lo.toNat - (k + 1) = 0 := by omega
      simp only [h1, and_self, decide_True, if_true, List.map_cons, ih (k + 1), e1, e2, e3,
        List.drop_zero, List.take_succ_cons]
    · simp only [h1, decide_False, Bool.false_eq_true, if_false, ih (k + 1)]
      by_cases h2 : (k : Int) < lo
      · have e1 : lo.toNat - k = (lo.toNat - (k + 1)) + 1 := by omega
        have e2 : (hi - max lo (k : Int)).toNat
            = (hi - max lo ((k + 1 : Nat) : Int)).toNat := by omega
        rw [e1, e2, List.drop_succ_cons]
      · have e2 : (hi - max lo (k : Int)).toNat = 0 := by omega
        have e3 : (hi - max lo ((k + 1 : Nat) : Int)).toNat = 0 := by omega
        rw [e2, e3, List.take_zero, List.take_zero]

theorem selectLines_eq (lines : List String) (lo hi : Int) (hlo : 0 ≤ lo) :
    selectLines lines lo hi = (lines.drop lo.toNat).take (hi - lo).toNat := by
  have h := selectFrom_eq lo hi lines 0
  have e : max lo ((0 : Nat) : Int) = lo := by simp [hlo]
  rw [e] at h
  simpa [selectLines, List.enum] using h

/-- The lines between the computed `start` and `end` are the lines of the window
`[max(0,c-50), min(L,c+50))`, also for a cursor at which `c - 50` or `c + 50` wraps. -/
theorem window_take_eq (lines : List String) (c : Int) (hc : IsGoInt c)
    (hL : (lines.length : Int) + 100 ≤ 2 ^ 63) :
    (lines.drop (windowStart c 50).toNat).take
        (windowStop c 50 lines.length - windowStart c 50).toNat
      = (lines.drop (max 0 (c - 50)).toNat).take
          (min (lines.length : Int) (c + 50) - max 0 (c - 50)).toNat := by
  obtain ⟨h1, h2⟩ := hc
  by_cases hhi : c + 50 < 2 ^ 63
  · by_cases hlo : -2 ^ 63 ≤ c - 50
    · have es : windowStart c 50 = max 0 (c - 50) := by
        unfold windowStart wrapInt; simp only; split <;> omega
      have ee : windowStop c 50 lines.length = min (lines.length : Int) (c + 50) := by
        unfold windowStop wrapInt; simp only; split <;> omega
      rw [es, ee]
    · have z1 : (windowStop c 50 lines.length - windowStart c 50).toNat = 0 := by
        unfold windowStop windowStart wrapInt; simp only; split <;> split <;> omega
      have z2 : (min (lines.length : Int) (c + 50) - max 0 (c - 50)).toNat = 0 := by omega
      rw [z1, z2, List.take_zero, List.take_zero]
  · have z1 : (windowStop c 50 lines.length - windowStart c 50).toNat = 0 := by
      unfold windowStop windowStart wrapInt; simp only; split <;> split <;> omega
    have z2 : (min (lines.length : Int) (c + 50) - max 0 (c - 50)).toNat = 0 := by omega
    rw [z1, z2, List.take_zero, List.take_zero]

/-- The function returns for every content, cursor and window: the text it returns is the
leading banner if `start > 0`, the lines from `start` up to `end`, and the trailing banner if
`end < totalLines`. -/
theorem truncateAroundCursor_eq (content : String) (c w : Int) :
    truncateAroundCursor content c w
      = some ((if windowStart c w > 0 then omittedBanner (windowStart c w) else "")
          ++ concatLines (((stringsSplit content).drop (windowStart c w).toNat).take
              (windowStop c w (stringsSplit content).length - windowStart c w).toNat)
          ++ (if windowStop c w (stringsSplit content).length < (stringsSplit content).length
              then omittedBanner (wrapInt ((stringsSplit content).length
                - windowStop c w (stringsSplit content).length))
              else "")) := by
  have hw := writeLines_eq (stringsSplit content)
    (windowStop c w (stringsSplit content).length) (windowStop_le _ _ _)
    (windowStop c w (stringsSplit content).length - windowStart c w).toNat
    (windowStart c w)
    (if windowStart c w > 0 then "" ++ omittedBanner (windowStart c w) else "")
    (windowStart_nonneg _ _) (le_refl _)
  unfold truncateAroundCursor
  simp only [hw]
  split <;> split <;> simp

/-- C1: for every content and every cursor line `c` (a Go `int`; the content has at most
`2^63 - 100` lines, as every content that fits in memory has), `truncateAroundCursor` with the
window 50 returns a leading text that is empty or a banner, then exactly the original lines
with index in `[max(0,c-50), min(L,c+50))` in increasing index order, each followed by a
newline, then a trailing text that is empty or a banner. -/
theorem truncateAroundCursor_emits_window (content : String) (c : Int) (hc : IsGoInt c)
    (hL : ((stringsSplit content).length : Int) + 100 ≤ 2 ^ 63) :
    ∃ lead trail : String,
      (lead = "" ∨ ∃ n : Int, lead = omittedBanner n) ∧
      (trail = "" ∨ ∃ n : Int, trail = omittedBanner n) ∧
      truncateAroundCursor content c 50
        = some (lead
            ++ concatLines (selectLines (stringsSplit content) (max 0 (c - 50))
                (min ((stringsSplit content).length : Int) (c + 50)))
            ++ trail) := by
  refine ⟨if windowStart c 50 > 0 then omittedBanner (windowStart c 50) else "",
    if windowStop c 50 (stringsSplit content).length < (stringsSplit content).length then
      omittedBanner (wrapInt ((stringsSplit content).length
        - windowStop c 50 (stringsSplit content).length)) else "", ?_, ?_, ?_⟩
  · split
    · exact Or.inr ⟨_, rfl⟩
    · exact Or.inl rfl
  · split
    · exact Or.inr ⟨_, rfl⟩
    · exact Or.inl rfl
  · rw [truncateAroundCursor_eq, window_take_eq _ c hc hL, ← selectLines_eq _ _ _ (by omega)]

/-- Witness of C1: the five-line sample with the cursor on line 2. -/
theorem truncateAroundCursor_emits_window_witness :
    IsGoInt 2 ∧ ((stringsSplit sampleContent).length : Int) + 100 ≤ 2 ^ 63 ∧
    ∃ lead trail : String,
      (lead = "" ∨ ∃ n : Int, lead = omittedBanner n) ∧
      (trail = "" ∨ ∃ n : Int, trail = omittedBanner n) ∧
      truncateAroundCursor sampleContent 2 50
        = some (lead
            ++ concatLines (selectLines (stringsSplit sampleContent) (max 0 (2 - 50))
                (min ((stringsSplit sampleContent).length : Int) (2 + 50)))
            ++ trail) :=
  ⟨by unfold IsGoInt; decide, by decide,
    truncateAroundCursor_emits_window sampleContent 2 (by unfold IsGoInt; decide) (by decide)⟩

/-! ## The omission banners -/

theorem splitNewline_replicate (n : Nat) :
    splitNewline (List.replicate n 'a') = [List.replicate n 'a'] := by
  induction n with
  | zero => rfl
  | succ k ih =>
    have h : ¬ ('a' = '\n') := by decide
    simp [List.replicate_succ, splitNewline, ih, h]

theorem utf8ByteSize_replicate (n : Nat) :
    (String.mk (List.replicate n 'a')).utf8ByteSize = n := by
  induction n with
  | zero => rfl
  | succ k ih =>
    have h : Char.utf8Size 'a' = 1 := by decide
    simp only [String.utf8ByteSize, List.replicate_succ, String.utf8ByteSize.go] at ih ⊢
    omega

theorem stringsSplit_replicate (n : Nat) :
    stringsSplit (String.mk (List.replicate n 'a')) = [String.mk (List.replicate n 'a')] := by
  simp [stringsSplit, splitNewline_replicate]

/-- C2: on a content of one line of 102401 bytes with the cursor on line 1000, a cursor past
the last line, `truncateAroundCursor` keeps no line and announces 950 omitted lines, although
the content has a single line. -/
theorem truncateAroundCursor_banner_overcounts :
    oneLongLine.utf8ByteSize = 102401 ∧ stringsSplit oneLongLine = [oneLongLine] ∧
    truncateAroundCursor oneLongLine 1000 50 = some "[...950 lines omitted...]\n" := by
  have hs : stringsSplit oneLongLine = [oneLongLine] := stringsSplit_replicate 102401
  refine ⟨utf8ByteSize_replicate 102401, hs, ?_⟩
  rw [truncateAroundCursor_eq, hs]
  simp only [List.length_singleton, Nat.cast_one]
  have h1 : windowStart 1000 50 = 950 := by decide
  have h2 : windowStop 1000 50 1 = 1 := by decide
  rw [h1, h2]
  decide

/-! ## The lines after the cursor -/

set_option maxRecDepth 100000 in
/-- Counterexample to C10: on the 102 lines `0` to `101` with the cursor on line 50, so
that `50 <= c` and `c + 50 < L`, the line of index `c + 50 = 100` exists and is not among
the lines of the returned excerpt. -/
theorem truncateAroundCursor_drops_line_c_plus_50 :
    (50 : Int) ≤ 50 ∧ (50 : Int) + 50 < ((stringsSplit numberedLines).length : Int) ∧
    lineAt (stringsSplit numberedLines) (50 + 50) = some "100" ∧
    ∃ out, truncateAroundCursor numberedLines 50 50 = some out ∧ "100" ∉ stringsSplit out := by
  refine ⟨by decide, by decide, by decide, _, rfl, ?_⟩
  decide

/-- C10, amended: for `50 <= c` and `c + 50 < L` the function returns the leading banner (when
`c > 50`), then the 100 original lines of index `c - 50` to `c + 49`, that is the 50 lines
before the cursor line, the cursor line and the 49 lines after it, then the banner that counts
the `L - (c + 50)` lines from index `c + 50` on as omitted. -/
theorem truncateAroundCursor_keeps_50_before_49_after (content : String) (c : Int)
    (h50 : 50 ≤ c) (hin : c + 50 < ((stringsSplit content).length : Int))
    (hL : ((stringsSplit content).length : Int) < 2 ^ 63) :
    truncateAroundCursor content c 50
      = some ((if 50 < c then omittedBanner (c - 50) else "")
          ++ concatLines (selectLines (stringsSplit content) (c - 50) (c + 50))
          ++ omittedBanner (((stringsSplit content).length : Int) - (c + 50))) ∧
    (selectLines (stringsSplit content) (c - 50) (c + 50)).length = 100 ∧
    ∀ j : Nat, j < 100 →
      (selectLines (stringsSplit content) (c - 50) (c + 50)).get? j
        = (stringsSplit content).get? ((c - 50).toNat + j) := by
  have es : windowStart c 50 = c - 50 := by
    unfold windowStart wrapInt; simp only; split <;> omega
  have ee : windowStop c 50 (stringsSplit content).length = c + 50 := by
    unfold windowStop wrapInt; simp only; split <;> omega
  have ew : wrapInt (((stringsSplit content).length : Int) - (c + 50))
      = ((stringsSplit content).length : Int) - (c + 50) := by
    unfold wrapInt; omega
  have hsel := selectLines_eq (stringsSplit content) (c - 50) (c + 50) (by omega)
  have hcnt : (c + 50 - (c - 50)).toNat = 100 := by omega
  rw [hcnt] at hsel
  refine ⟨?_, ?_, ?_⟩
  · rw [truncateAroundCursor_eq, es, ee, ew, hsel]
    have h1 : (c + 50 - (c - 50)).toNat = 100 := by omega
    rw [h1]
    have h2 : (c - 50 > 0) = (50 < c) := by
      apply propext; constructor <;> intro h <;> omega
    simp only [h2, hin, if_true]
  · rw [hsel, List.length_take, List.length_drop]
    omega
  · intro j hj
    rw [hsel]
    simp only [List.get?_eq_getElem?]
    rw [List.getElem?_take_of_lt hj, List.getElem?_drop]

set_option maxRecDepth 100000 in
/-- Witness of the amended C10: the 102 numbered lines with the cursor on line 51. -/
theorem truncateAroundCursor_keeps_50_before_49_after_witness :
    (50 : Int) ≤ 51 ∧ (51 : Int) + 50 < ((stringsSplit numberedLines).length : Int) ∧
    ((stringsSplit numberedLines).length : Int) < 2 ^ 63 ∧
    (truncateAroundCursor numberedLines 51 50
      = some ((if (50 : Int) < 51 then omittedBanner (51 - 50) else "")
          ++ concatLines (selectLines (stringsSplit numberedLines) (51 - 50) (51 + 50))
          ++ omittedBanner (((stringsSplit numberedLines).length : Int) - (51 + 50))) ∧
    (selectLines (stringsSplit numberedLines) (51 - 50) (51 + 50)).length = 100 ∧
    ∀ j : Nat, j < 100 →
      (selectLines (stringsSplit numberedLines) (51 - 50) (51 + 50)).get? j
        = (stringsSplit numberedLines).get? (((51 : Int) - 50).toNat + j)) :=
  ⟨by decide, by decide, by decide,
    truncateAroundCursor_keeps_50_before_49_after numberedLines 51 (by decide) (by decide)
      (by decide)⟩

/-! ## The read loop of a connection -/

/-- The messages built from the lines that decode, in the order of the lines. -/
theorem handleConnection_lines_append (unmarshal : String → Option BufferEvent)
    (tail : List Read) : ∀ lines : List String,
    handleConnection unmarshal true (lines.map Read.line ++ tail)
      = { sent := (lines.filterMap unmarshal).map
            (fun event => TeaMsg.bufferEvent (bufferEventMsgOf event))
            ++ (handleConnection unmarshal true tail).sent
          returned := (handleConnection unmarshal true tail).returned } := by
  intro lines
  induction lines with
  | nil => simp
  | cons l ls ih =>
    cases h : unmarshal l with
    | none => simp [handleConnection, List.filterMap_cons, h, ih]
    | some event => simp [handleConnection, List.filterMap_cons, h, ih]

theorem bufferEventsOf_map (events : List BufferEvent) (rest : List TeaMsg) :
    bufferEventsOf (events.map (fun event => TeaMsg.bufferEvent (bufferEventMsgOf event)) ++ rest)
      = events.map bufferEventMsgOf ++ bufferEventsOf rest := by
  induction events with
  | nil => simp
  | cons e es ih => simp [bufferEventsOf, ih]

/-- C3: for every decoder and every sequence of lines read on a connection with the sink set,
the messages sent are exactly the buffer-event messages of the lines that decode, in the order
of the lines, and the loop has not returned; a further line that fails to decode changes
neither; and when a read error follows, the function returns after the same buffer-event
messages and the disconnect status. -/
theorem handleConnection_delivers_decoded_lines_in_order
    (unmarshal : String → Option BufferEvent) (lines : List String) :
    (handleConnection unmarshal true (lines.map Read.line)).returned = false ∧
    (handleConnection unmarshal true (lines.map Read.line)).sent
      = (lines.filterMap unmarshal).map
          (fun event => TeaMsg.bufferEvent (bufferEventMsgOf event)) ∧
    (∀ bad : String, unmarshal bad = none →
      handleConnection unmarshal true (lines.map Read.line ++ [Read.line bad])
        = handleConnection unmarshal true (lines.map Read.line)) ∧
    (handleConnection unmarshal true (lines.map Read.line ++ [Read.err])).returned = true ∧
    bufferEventsOf (handleConnection unmarshal true (lines.map Read.line ++ [Read.err])).sent
      = (lines.filterMap unmarshal).map bufferEventMsgOf ∧
    (handleConnection unmarshal true (lines.map Read.line ++ [Read.err])).sent
      = (lines.filterMap unmarshal).map
          (fun event => TeaMsg.bufferEvent (bufferEventMsgOf event))
        ++ [TeaMsg.connectionStatus false "nvim"] := by
  have h0 := handleConnection_lines_append unmarshal [] lines
  have he := handleConnection_lines_append unmarshal [Read.err] lines
  simp only [List.append_nil] at h0
  refine ⟨?_, ?_, ?_, ?_, ?_, ?_⟩
  · rw [h0]; simp [handleConnection]
  · rw [h0]; simp [handleConnection]
  · intro bad hbad
    rw [handleConnection_lines_append unmarshal [Read.line bad] lines, h0]
    simp [handleConnection, hbad]
  · rw [he]; simp [handleConnection]
  · rw [he]
    simp only [bufferEventsOf_map]
    simp [handleConnection, bufferEventsOf]
  · rw [he]; simp [handleConnection]

/-- Counterexample to C7: a line that decodes to an event whose type and event are both
outside the enumerated values is delivered to the sink as a buffer-event message. -/
theorem handleConnection_dispatches_unknown_kinds :
    sampleUnmarshal "future\n" = some futureEvent ∧
    futureEvent.Type_ ∉ knownMessageTypes ∧ futureEvent.Event ∉ knownEventTypes ∧
    bufferEventsOf (handleConnection sampleUnmarshal true [Read.line "future\n"]).sent
      = [bufferEventMsgOf futureEvent] ∧
    bufferEventsOf (handleConnection sampleUnmarshal true [Read.line "future\n"]).sent ≠ [] := by
  decide

/-- C7, amended: every line that decodes as a `BufferEvent`, whatever its type and event, is
accepted: the loop goes on, and exactly one buffer-event message, built from the event and
carrying its event string unchanged, is sent to the sink after the messages of the lines
before it. -/
theorem handleConnection_dispatches_every_decoded_line
    (unmarshal : String → Option BufferEvent) (lines : List String) (line : String)
    (event : BufferEvent) (hdec : unmarshal line = some event) :
    (handleConnection unmarshal true (lines.map Read.line ++ [Read.line line])).returned
      = false ∧
    (handleConnection unmarshal true (lines.map Read.line ++ [Read.line line])).sent
      = (handleConnection unmarshal true (lines.map Read.line)).sent
        ++ [TeaMsg.bufferEvent (bufferEventMsgOf event)] ∧
    (bufferEventMsgOf event).LastEvent = event.Event := by
  have h0 := handleConnection_lines_append unmarshal [] lines
  simp only [List.append_nil] at h0
  rw [handleConnection_lines_append unmarshal [Read.line line] lines, h0]
  simp [handleConnection, hdec, bufferEventMsgOf]

/-- Witness of the amended C7: an event of unknown kinds after a rejected line and a valid
line. -/
theorem handleConnection_dispatches_every_decoded_line_witness :
    sampleUnmarshal "future\n" = some futureEvent ∧
    futureEvent.Type_ ∉ knownMessageTypes ∧
    (handleConnection sampleUnmarshal true
      (["garbage\n", "sample\n"].map Read.line ++ [Read.line "future\n"])).returned = false ∧
    (handleConnection sampleUnmarshal true
      (["garbage\n", "sample\n"].map Read.line ++ [Read.line "future\n"])).sent
      = (handleConnection sampleUnmarshal true (["garbage\n", "sample\n"].map Read.line)).sent
        ++ [TeaMsg.bufferEvent (bufferEventMsgOf futureEvent)] ∧
    (bufferEventMsgOf futureEvent).LastEvent = futureEvent.Event :=
  ⟨by decide, by decide,
    handleConnection_dispatches_every_decoded_line sampleUnmarshal ["garbage\n", "sample\n"]
      "future\n" futureEvent (by decide)⟩

/-! ## The session client -/

theorem sprintf_retries (e : GoError) :
    Sprintf "failed to create session after %d retries: %w"
        [FmtArg.int maxRetries, FmtArg.err (some e)]
      = "failed to create session after 3 retries: " ++ e.Error := by
  have h : (Sprintf "failed to create session after %d retries: %w"
        [FmtArg.int 3, FmtArg.err (some e)]).data
      = "failed to create session after 3 retries: ".data ++ (e.Error.data ++ []) := rfl
  apply String.ext
  simp only [maxRetries, Nat.cast_ofNat, String.data_append, h, List.append_nil]

/-- The trace of one creation attempt. -/
theorem attempt_trace {σ : Type} (B : Backend σ) (i : Nat) (w : World σ) :
    ∃ title : String,
      (attempt B i w).2.trace
        = w.trace ++ (if i > 0 then [Call.sleep 1000000000] else [])
          ++ [Call.sessionNew title (attempt B i w).1] := by
  by_cases hi : i > 0
  · refine ⟨Sprintf "Algopeeps Council - %s"
      [FmtArg.str (B.today (w.sleep B retryDelay).state)], ?_⟩
    simp [attempt, hi, World.sessionNew, World.sleep, retryDelay]
  · refine ⟨Sprintf "Algopeeps Council - %s" [FmtArg.str (B.today w.state)], ?_⟩
    simp [attempt, hi, World.sessionNew]

theorem attempt_fails {σ : Type} (B : Backend σ)
    (hfail : ∀ (s : σ) (title : String), ∃ e, (B.sessionNew s title).1 = NewResult.fail e)
    (i : Nat) (w : World σ) : ∃ e, (attempt B i w).1 = NewResult.fail e := by
  unfold attempt World.sessionNew
  exact hfail _ _

/-- Three failed attempts in a row leave the loop without a return. -/
theorem createSession_all_fail {σ : Type} (B : Backend σ)
    (hfail : ∀ (s : σ) (title : String), ∃ e, (B.sessionNew s title).1 = NewResult.fail e)
    (c : Client) (w : World σ) :
    ∃ (t1 t2 t3 : String) (e1 e2 e3 : GoError),
      (createSession B c w).world.trace
        = w.trace ++ [Call.sessionNew t1 (NewResult.fail e1), Call.sleep 1000000000,
            Call.sessionNew t2 (NewResult.fail e2), Call.sleep 1000000000,
            Call.sessionNew t3 (NewResult.fail e3)] ∧
      (createSession B c w).err
        = some (GoError.wrapped ("failed to create session after 3 retries: " ++ e3.Error) e3) ∧
      (createSession B c w).client = { c with connected := false } := by
  obtain ⟨e1, h1⟩ := attempt_fails B hfail 0 w
  obtain ⟨e2, h2⟩ := attempt_fails B hfail 1 (attempt B 0 w).2
  obtain ⟨e3, h3⟩ := attempt_fails B hfail 2 (attempt B 1 (attempt B 0 w).2).2
  obtain ⟨t1, ht1⟩ := attempt_trace B 0 w
  obtain ⟨t2, ht2⟩ := attempt_trace B 1 (attempt B 0 w).2
  obtain ⟨t3, ht3⟩ := attempt_trace B 2 (attempt B 1 (attempt B 0 w).2).2
  have hloop : createLoop B maxRetries 0 none c w
      = { returned := false, lastErr := some e3, client := c
          world := (attempt B 2 (attempt B 1 (attempt B 0 w).2).2).2 } := by
    simp only [maxRetries, createLoop, h1, h2, h3]
  have hcs : createSession B c w
      = { err := some (GoError.wrapped
            ("failed to create session after 3 retries: " ++ e3.Error) e3)
          client := { c with connected := false }
          world := (attempt B 2 (attempt B 1 (attempt B 0 w).2).2).2 } := by
    simp [createSession, hloop, Errorf, wrappedOperand, sprintf_retries]
  refine ⟨t1, t2, t3, e1, e2, e3, ?_, ?_, ?_⟩
  · rw [hcs]
    simp only
    rw [ht3, ht2, ht1, h1, h2, h3]
    simp
  · rw [hcs]
  · rw [hcs]

/-- C4: when every creation call fails, and the client holds no id or its probe fails,
`EnsureSession` makes, after that probe, exactly three creation calls with a sleep of one
second before the second and before the third and none before the first; it returns the
error "failed to create session after 3 retries: ..." that wraps the error of the third
call, and leaves `connected` false and the session id empty. -/
theorem EnsureSession_exhausts_three_attempts {σ : Type} (B : Backend σ) (c : Client)
    (w : World σ)
    (hfail : ∀ (s : σ) (title : String), ∃ e, (B.sessionNew s title).1 = NewResult.fail e)
    (hstart : c.sessionID = "" ∨ (B.sessionGet w.state c.sessionID).1 ≠ none) :
    ∃ (probe : List Call) (t1 t2 t3 : String) (e1 e2 e3 : GoError),
      ((probe = [] ∧ c.sessionID = "") ∨
        (∃ e, probe = [Call.sessionGet c.sessionID (some e)] ∧ c.sessionID ≠ "")) ∧
      (EnsureSession B c w).world.trace
        = w.trace ++ probe ++ [Call.sessionNew t1 (NewResult.fail e1), Call.sleep 1000000000,
            Call.sessionNew t2 (NewResult.fail e2), Call.sleep 1000000000,
            Call.sessionNew t3 (NewResult.fail e3)] ∧
      (EnsureSession B c w).err
        = some (GoError.wrapped ("failed to create session after 3 retries: " ++ e3.Error) e3) ∧
      (EnsureSession B c w).err.bind GoError.Unwrap = some e3 ∧
      (EnsureSession B c w).client.connected = false ∧
      (EnsureSession B c w).client.sessionID = "" := by
  by_cases hid : c.sessionID = ""
  · obtain ⟨t1, t2, t3, e1, e2, e3, htr, herr, hcl⟩ := createSession_all_fail B hfail c w
    have hE : EnsureSession B c w = createSession B c w := by simp [EnsureSession, hid]
    refine ⟨[], t1, t2, t3, e1, e2, e3, Or.inl ⟨rfl, hid⟩, ?_, ?_, ?_, ?_, ?_⟩
    · rw [hE, htr]; simp
    · rw [hE, herr]
    · rw [hE, herr]; rfl
    · rw [hE, hcl]
    · rw [hE, hcl]; exact hid
  · have hprobe : (B.sessionGet w.state c.sessionID).1 ≠ none := by
      rcases hstart with h | h
      · exact absurd h hid
      · exact h
    obtain ⟨e, he⟩ := Option.ne_none_iff_exists'.mp hprobe
    obtain ⟨t1, t2, t3, e1, e2, e3, htr, herr, hcl⟩ := createSession_all_fail B hfail
      { c with sessionID := "", connected := false } (w.sessionGet B c.sessionID).2
    have hE : EnsureSession B c w
        = createSession B { c with sessionID := "", connected := false }
            (w.sessionGet B c.sessionID).2 := by
      simp [EnsureSession, hid, World.sessionGet, he]
    refine ⟨[Call.sessionGet c.sessionID (some e)], t1, t2, t3, e1, e2, e3,
      Or.inr ⟨e, rfl, hid⟩, ?_, ?_, ?_, ?_, ?_⟩
    · rw [hE, htr]; simp [World.sessionGet, he]
    · rw [hE, herr]
    · rw [hE, herr]; rfl
    · rw [hE, hcl]
    · rw [hE, hcl]

/-- Witness of C4: a client holding a stale id against a backend on which every call fails. -/
theorem EnsureSession_exhausts_three_attempts_witness :
    (∀ (s : Nat) (title : String),
      ∃ e, (failingBackend.sessionNew s title).1 = NewResult.fail e) ∧
    (staleClient.sessionID = ""
      ∨ (failingBackend.sessionGet freshWorld.state staleClient.sessionID).1 ≠ none) ∧
    ∃ (probe : List Call) (t1 t2 t3 : String) (e1 e2 e3 : GoError),
      ((probe = [] ∧ staleClient.sessionID = "") ∨
        (∃ e, probe = [Call.sessionGet staleClient.sessionID (some e)]
          ∧ staleClient.sessionID ≠ "")) ∧
      (EnsureSession failingBackend staleClient freshWorld).world.trace
        = freshWorld.trace ++ probe
          ++ [Call.sessionNew t1 (NewResult.fail e1), Call.sleep 1000000000,
            Call.sessionNew t2 (NewResult.fail e2), Call.sleep 1000000000,
            Call.sessionNew t3 (NewResult.fail e3)] ∧
      (EnsureSession failingBackend staleClient freshWorld).err
        = some (GoError.wrapped ("failed to create session after 3 retries: " ++ e3.Error) e3) ∧
      (EnsureSession failingBackend staleClient freshWorld).err.bind GoError.Unwrap = some e3 ∧
      (EnsureSession failingBackend staleClient freshWorld).client.connected = false ∧
      (EnsureSession failingBackend staleClient freshWorld).client.sessionID = "" :=
  ⟨fun _ _ => ⟨_, rfl⟩, Or.inr (by decide),
    EnsureSession_exhausts_three_attempts failingBackend staleClient freshWorld
      (fun _ _ => ⟨_, rfl⟩) (Or.inr (by decide))⟩

/-- A probe that succeeds ends `EnsureSession` at once. -/
theorem EnsureSession_of_live {σ : Type} (B : Backend σ) (c : Client) (w : World σ)
    (hid : c.sessionID ≠ "") (hprobe : (B.sessionGet w.state c.sessionID).1 = none) :
    EnsureSession B c w
      = { err := none, client := { c with connected := true }
          world := { state := (B.sessionGet w.state c.sessionID).2
                     trace := w.trace ++ [Call.sessionGet c.sessionID none] } } := by
  simp [EnsureSession, hid, World.sessionGet, hprobe]

/-- A creation that succeeds at the first attempt. -/
theorem createSession_of_ok {σ : Type} (B : Backend σ) (c : Client) (w : World σ) (id : String)
    (hok : (attempt B 0 w).1 = NewResult.ok id) :
    createSession B c w
      = { err := none, client := { c with sessionID := id, connected := true }
          world := (attempt B 0 w).2 } := by
  simp [createSession, maxRetries, createLoop, hok]

/-- Against a backend whose probes succeed and whose creations return a non-empty id,
`EnsureSession` succeeds and leaves a non-empty id. -/
theorem EnsureSession_healthy {σ : Type} (B : Backend σ) (c : Client) (w : World σ)
    (hget : ∀ (s : σ) (id : String), (B.sessionGet s id).1 = none)
    (hnew : ∀ (s : σ) (title : String),
      ∃ id, id ≠ "" ∧ (B.sessionNew s title).1 = NewResult.ok id) :
    (EnsureSession B c w).err = none ∧ (EnsureSession B c w).client.sessionID ≠ "" := by
  by_cases hid : c.sessionID = ""
  · obtain ⟨id, hne, hok⟩ : ∃ id, id ≠ "" ∧ (attempt B 0 w).1 = NewResult.ok id := by
      unfold attempt World.sessionNew
      exact hnew _ _
    have hE : EnsureSession B c w = createSession B c w := by simp [EnsureSession, hid]
    rw [hE, createSession_of_ok B c w id hok]
    exact ⟨rfl, hne⟩
  · rw [EnsureSession_of_live B c w hid (hget _ _)]
    exact ⟨rfl, hid⟩

/-- C5: a client that holds a non-empty id whose probe succeeds gets success from
`EnsureSession` with the probe as the only call (no creation call) and the id unchanged; and
against a healthy backend (every probe succeeds, every creation returns a non-empty id) two
calls of `EnsureSession` in a row both succeed, the second makes only a probe, and both
leave the same session id. -/
theorem EnsureSession_keeps_live_session {σ : Type} (B : Backend σ) (c : Client)
    (w : World σ) :
    (c.sessionID ≠ "" → (B.sessionGet w.state c.sessionID).1 = none →
      (EnsureSession B c w).err = none ∧
      (EnsureSession B c w).client.sessionID = c.sessionID ∧
      (EnsureSession B c w).client.connected = true ∧
      (EnsureSession B c w).world.trace = w.trace ++ [Call.sessionGet c.sessionID none]) ∧
    ((∀ (s : σ) (id : String), (B.sessionGet s id).1 = none) →
      (∀ (s : σ) (title : String),
        ∃ id, id ≠ "" ∧ (B.sessionNew s title).1 = NewResult.ok id) →
      (EnsureSession B c w).err = none ∧
      (EnsureSession B (EnsureSession B c w).client (EnsureSession B c w).world).err = none ∧
      (EnsureSession B (EnsureSession B c w).client (EnsureSession B c w).world).client.sessionID
        = (EnsureSession B c w).client.sessionID ∧
      (EnsureSession B (EnsureSession B c w).client (EnsureSession B c w).world).world.trace
        = (EnsureSession B c w).world.trace
          ++ [Call.sessionGet (EnsureSession B c w).client.sessionID none]) := by
  constructor
  · intro hid hprobe
    rw [EnsureSession_of_live B c w hid hprobe]
    exact ⟨rfl, rfl, rfl, rfl⟩
  · intro hget hnew
    obtain ⟨h1, h2⟩ := EnsureSession_healthy B c w hget hnew
    rw [EnsureSession_of_live B (EnsureSession B c w).client (EnsureSession B c w).world h2
      (hget _ _)]
    exact ⟨h1, rfl, rfl, rfl⟩

/-- Witness of C5: a held id on the healthy backend, and two calls in a row starting from a
new client. -/
theorem EnsureSession_keeps_live_session_witness :
    (staleClient.sessionID ≠ "" ∧
      (healthyBackend.sessionGet freshWorld.state staleClient.sessionID).1 = none ∧
      (EnsureSession healthyBackend staleClient freshWorld).err = none ∧
      (EnsureSession healthyBackend staleClient freshWorld).client.sessionID
        = staleClient.sessionID ∧
      (EnsureSession healthyBackend staleClient freshWorld).client.connected = true ∧
      (EnsureSession healthyBackend staleClient freshWorld).world.trace
        = freshWorld.trace ++ [Call.sessionGet staleClient.sessionID none]) ∧
    ((∀ (s : Nat) (id : String), (healthyBackend.sessionGet s id).1 = none) ∧
      (∀ (s : Nat) (title : String),
        ∃ id, id ≠ "" ∧ (healthyBackend.sessionNew s title).1 = NewResult.ok id) ∧
      (EnsureSession healthyBackend (NewClient DefaultConfig) freshWorld).err = none ∧
      (EnsureSession healthyBackend
          (EnsureSession healthyBackend (NewClient DefaultConfig) freshWorld).client
          (EnsureSession healthyBackend (NewClient DefaultConfig) freshWorld).world).err
        = none ∧
      (EnsureSession healthyBackend
          (EnsureSession healthyBackend (NewClient DefaultConfig) freshWorld).client
          (EnsureSession healthyBackend (NewClient DefaultConfig) freshWorld).world).client.sessionID
        = (EnsureSession healthyBackend (NewClient DefaultConfig) freshWorld).client.sessionID ∧
      (EnsureSession healthyBackend
          (EnsureSession healthyBackend (NewClient DefaultConfig) freshWorld).client
          (EnsureSession healthyBackend (NewClient DefaultConfig) freshWorld).world).world.trace
        = (EnsureSession healthyBackend (NewClient DefaultConfig) freshWorld).world.trace
          ++ [Call.sessionGet
            (EnsureSession healthyBackend (NewClient DefaultConfig) freshWorld).client.sessionID
            none]) :=
  ⟨⟨by decide, rfl,
      (EnsureSession_keeps_live_session healthyBackend staleClient freshWorld).1
        (by decide) rfl⟩,
    ⟨fun _ _ => rfl, fun _ _ => ⟨"ses_0001", by decide, rfl⟩,
      (EnsureSession_keeps_live_session healthyBackend (NewClient DefaultConfig) freshWorld).2
        (fun _ _ => rfl) (fun _ _ => ⟨"ses_0001", by decide, rfl⟩)⟩⟩

/-- The loop returns only after a creation that succeeded, with the id it returned. -/
theorem createLoop_returned {σ : Type} (B : Backend σ)
    (hid : ∀ (s : σ) (title id : String), (B.sessionNew s title).1 = NewResult.ok id → id ≠ "") :
    ∀ (remaining i : Nat) (lastErr : Option GoError) (c : Client) (w : World σ),
      (createLoop B remaining i lastErr c w).returned = true →
      (createLoop B remaining i lastErr c w).client.sessionID ≠ "" := by
  intro remaining
  induction remaining with
  | zero => intro i lastErr c w h; simp [createLoop] at h
  | succ n ih =>
    intro i lastErr c w h
    cases hr : (attempt B i w).1 with
    | fail err =>
      simp only [createLoop, hr] at h ⊢
      exact ih _ _ _ _ h
    | ok id =>
      simp only [createLoop, hr]
      unfold attempt World.sessionNew at hr
      exact hid _ _ _ hr

/-- After `EnsureSession`, whatever the client was before, a connected client holds a
non-empty id, provided the backend never returns an empty id from a creation. -/
theorem EnsureSession_connected_id {σ : Type} (B : Backend σ)
    (hid : ∀ (s : σ) (title id : String), (B.sessionNew s title).1 = NewResult.ok id → id ≠ "")
    (c : Client) (w : World σ) :
    (EnsureSession B c w).client.connected = true →
    (EnsureSession B c w).client.sessionID ≠ "" := by
  have hcs : ∀ (c : Client) (w : World σ), (createSession B c w).client.connected = true →
      (createSession B c w).client.sessionID ≠ "" := by
    intro c w
    unfold createSession
    by_cases hret : (createLoop B maxRetries 0 none c w).returned = true
    · simp only [hret, if_true]
      intro _
      exact createLoop_returned B hid _ _ _ _ _ hret
    · simp [hret]
  unfold EnsureSession
  by_cases hne : c.sessionID = ""
  · simp only [hne, ne_eq, not_true_eq_false, if_false]
    exact hcs _ _
  · simp only [ne_eq, hne, not_false_eq_true, if_true]
    cases hp : (w.sessionGet B c.sessionID).1 with
    | none => simp [hne]
    | some e => simp only; exact hcs _ _

theorem runOps_invariant {σ : Type} (B : Backend σ)
    (hid : ∀ (s : σ) (title id : String), (B.sessionNew s title).1 = NewResult.ok id → id ≠ "")
    (ops : List ClientOp) : ∀ cw : Client × World σ,
      (cw.1.connected = true → cw.1.sessionID ≠ "") →
      (runOps B ops cw).1.connected = true → (runOps B ops cw).1.sessionID ≠ "" := by
  induction ops with
  | nil => intro cw h; simpa [runOps] using h
  | cons op ops ih =>
    intro cw h
    have hstep : (applyOp B cw op).1.connected = true → (applyOp B cw op).1.sessionID ≠ "" := by
      cases op with
      | ensureSession => exact EnsureSession_connected_id B hid cw.1 cw.2
      | sendPrompt agent prompt =>
        simp only [applyOp, SendPrompt]
        split
        · exact h
        · split <;> exact h
      | close => simpa [applyOp, Close] using h
    have := ih (applyOp B cw op) hstep
    simpa [runOps] using this

/-- Counterexample to C6: against a backend whose creation returns the empty id, one call
of `EnsureSession` on a new client leaves `connected` true and the session id empty. -/
theorem EnsureSession_connected_with_empty_id :
    (runOps emptyIdBackend [ClientOp.ensureSession]
      (NewClient DefaultConfig, freshWorld)).1.connected = true ∧
    (runOps emptyIdBackend [ClientOp.ensureSession]
      (NewClient DefaultConfig, freshWorld)).1.sessionID = "" := by
  decide

/-- C6, amended: against every backend that never returns an empty id from a successful
creation, in every state reached from `NewClient` by any sequence of `EnsureSession`,
`SendPrompt` and `Close`, a client with `connected` true holds a non-empty session id. -/
theorem connected_implies_session_id {σ : Type} (B : Backend σ)
    (hid : ∀ (s : σ) (title id : String), (B.sessionNew s title).1 = NewResult.ok id → id ≠ "")
    (cfg : Config) (w : World σ) (ops : List ClientOp) :
    (runOps B ops (NewClient cfg, w)).1.connected = true →
    (runOps B ops (NewClient cfg, w)).1.sessionID ≠ "" := by
  apply runOps_invariant B hid ops
  simp [NewClient]

/-- Witness of the amended C6: a run with all three calls on the healthy backend. -/
theorem connected_implies_session_id_witness :
    (∀ (s : Nat) (title id : String),
      (healthyBackend.sessionNew s title).1 = NewResult.ok id → id ≠ "") ∧
    (runOps healthyBackend
      [ClientOp.sendPrompt "code-reviewer" "hello", ClientOp.ensureSession,
        ClientOp.sendPrompt "bug-spotter" "hello", ClientOp.close, ClientOp.ensureSession]
      (NewClient DefaultConfig, freshWorld)).1.connected = true ∧
    (runOps healthyBackend
      [ClientOp.sendPrompt "code-reviewer" "hello", ClientOp.ensureSession,
        ClientOp.sendPrompt "bug-spotter" "hello", ClientOp.close, ClientOp.ensureSession]
      (NewClient DefaultConfig, freshWorld)).1.sessionID ≠ "" := by
  have hid : ∀ (s : Nat) (title id : String),
      (healthyBackend.sessionNew s title).1 = NewResult.ok id → id ≠ "" := by
    intro s title id h
    have : id = "ses_0001" := by
      simp only [healthyBackend] at h
      exact (NewResult.ok.inj h).symm
    rw [this]
    decide
  exact ⟨hid, by decide,
    connected_implies_session_id healthyBackend hid DefaultConfig freshWorld _ (by decide)⟩

/-! ## Shaping the content and building the prompt -/

/-- The content passed to `buildPrompt` always exists: `truncateAroundCursor` returns. -/
theorem shapedContent_eq (msg : BufferEventMsg) :
    (msg.Content.utf8ByteSize ≤ 102400 → shapedContent msg = some msg.Content) ∧
    (102400 < msg.Content.utf8ByteSize →
      shapedContent msg = truncateAroundCursor msg.Content msg.CursorLine 50) := by
  constructor
  · intro h
    have : ¬ msg.Content.utf8ByteSize > maxSize := by simp only [maxSize]; omega
    simp [shapedContent, this]
  · intro h
    have : msg.Content.utf8ByteSize > maxSize := by simp only [maxSize]; omega
    simp [shapedContent, this]

theorem handleBufferEvent_of_content {σ : Type} (B : Backend σ) (c : Client) (w : World σ)
    (msg : BufferEventMsg) (content : String) (hE : (EnsureSession B c w).err = none)
    (hc : shapedContent msg = some content) :
    (handleBufferEvent B c w msg).1
      = HandleResult.dispatched
          (buildPrompt msg.Filename msg.Filetype msg.CursorLine msg.CursorCol msg.LastEvent
            content)
          ["code-reviewer", "bug-spotter"]
          [("code-reviewer", buildPrompt msg.Filename msg.Filetype msg.CursorLine
              msg.CursorCol msg.LastEvent content),
            ("bug-spotter", buildPrompt msg.Filename msg.Filetype msg.CursorLine
              msg.CursorCol msg.LastEvent content)] := by
  simp [handleBufferEvent, hE, hc]

/-- C8: once the session is ensured, `handleBufferEvent` builds the prompt from the original
content, unchanged, whenever the content has at most 102400 bytes, and from the text returned
by `truncateAroundCursor(content, cursorLine, 50)`, which always returns, exactly when the
content has more than 102400 bytes. -/
theorem handleBufferEvent_shapes_only_above_threshold {σ : Type} (B : Backend σ) (c : Client)
    (w : World σ) (msg : BufferEventMsg) (hE : (EnsureSession B c w).err = none) :
    (msg.Content.utf8ByteSize ≤ 102400 →
      (handleBufferEvent B c w msg).1
        = HandleResult.dispatched
            (buildPrompt msg.Filename msg.Filetype msg.CursorLine msg.CursorCol msg.LastEvent
              msg.Content)
            ["code-reviewer", "bug-spotter"]
            [("code-reviewer", buildPrompt msg.Filename msg.Filetype msg.CursorLine
                msg.CursorCol msg.LastEvent msg.Content),
              ("bug-spotter", buildPrompt msg.Filename msg.Filetype msg.CursorLine
                msg.CursorCol msg.LastEvent msg.Content)]) ∧
    (102400 < msg.Content.utf8ByteSize →
      ∃ excerpt : String,
        truncateAroundCursor msg.Content msg.CursorLine 50 = some excerpt ∧
        (handleBufferEvent B c w msg).1
          = HandleResult.dispatched
              (buildPrompt msg.Filename msg.Filetype msg.CursorLine msg.CursorCol
                msg.LastEvent excerpt)
              ["code-reviewer", "bug-spotter"]
              [("code-reviewer", buildPrompt msg.Filename msg.Filetype msg.CursorLine
                  msg.CursorCol msg.LastEvent excerpt),
                ("bug-spotter", buildPrompt msg.Filename msg.Filetype msg.CursorLine
                  msg.CursorCol msg.LastEvent excerpt)]) := by
  constructor
  · intro h
    exact handleBufferEvent_of_content B c w msg _ hE ((shapedContent_eq msg).1 h)
  · intro h
    refine ⟨_, truncateAroundCursor_eq _ _ _, ?_⟩
    apply handleBufferEvent_of_content B c w msg _ hE
    rw [(shapedContent_eq msg).2 h, truncateAroundCursor_eq]

/-- Witness of C8: a content of exactly 102400 bytes is passed on unchanged, and a content of
102401 bytes is replaced by the excerpt. -/
theorem handleBufferEvent_shapes_only_above_threshold_witness :
    (EnsureSession healthyBackend (NewClient DefaultConfig) freshWorld).err = none ∧
    thresholdMsg.Content.utf8ByteSize ≤ 102400 ∧
    (handleBufferEvent healthyBackend (NewClient DefaultConfig) freshWorld thresholdMsg).1
      = HandleResult.dispatched
          (buildPrompt thresholdMsg.Filename thresholdMsg.Filetype thresholdMsg.CursorLine
            thresholdMsg.CursorCol thresholdMsg.LastEvent thresholdMsg.Content)
          ["code-reviewer", "bug-spotter"]
          [("code-reviewer", buildPrompt thresholdMsg.Filename thresholdMsg.Filetype
              thresholdMsg.CursorLine thresholdMsg.CursorCol thresholdMsg.LastEvent
              thresholdMsg.Content),
            ("bug-spotter", buildPrompt thresholdMsg.Filename thresholdMsg.Filetype
              thresholdMsg.CursorLine thresholdMsg.CursorCol thresholdMsg.LastEvent
              thresholdMsg.Content)] ∧
    102400 < oversizeMsg.Content.utf8ByteSize ∧
    ∃ excerpt : String,
      truncateAroundCursor oversizeMsg.Content oversizeMsg.CursorLine 50 = some excerpt ∧
      (handleBufferEvent healthyBackend (NewClient DefaultConfig) freshWorld oversizeMsg).1
        = HandleResult.dispatched
            (buildPrompt oversizeMsg.Filename oversizeMsg.Filetype oversizeMsg.CursorLine
              oversizeMsg.CursorCol oversizeMsg.LastEvent excerpt)
            ["code-reviewer", "bug-spotter"]
            [("code-reviewer", buildPrompt oversizeMsg.Filename oversizeMsg.Filetype
                oversizeMsg.CursorLine oversizeMsg.CursorCol oversizeMsg.LastEvent excerpt),
              ("bug-spotter", buildPrompt oversizeMsg.Filename oversizeMsg.Filetype
                oversizeMsg.CursorLine oversizeMsg.CursorCol oversizeMsg.LastEvent excerpt)] :=
  ⟨by decide, le_of_eq (utf8ByteSize_replicate 102400),
    (handleBufferEvent_shapes_only_above_threshold healthyBackend (NewClient DefaultConfig)
      freshWorld thresholdMsg (by decide)).1 (le_of_eq (utf8ByteSize_replicate 102400)),
    lt_of_lt_of_eq (by decide) (utf8ByteSize_replicate 102401).symm,
    (handleBufferEvent_shapes_only_above_threshold healthyBackend (NewClient DefaultConfig)
      freshWorld oversizeMsg (by decide)).2
      (lt_of_lt_of_eq (by decide) (utf8ByteSize_replicate 102401).symm)⟩

set_option maxRecDepth 100000 in
/-- The text `buildPrompt` returns. -/
theorem buildPrompt_eq (path filetype : String) (line col : Int) (eventType content : String) :
    buildPrompt path filetype line col eventType content
      = promptText path filetype line col content eventType := by
  apply String.ext
  simp only [promptText, String.data_append, List.append_assoc]
  rfl

set_option maxRecDepth 100000 in
/-- Counterexample to C9: for an event whose buffer path and name differ, the prompt is the
template around the buffer name; it is not the template around the path. -/
theorem prompt_embeds_name_not_path :
    sampleEvent.Buffer.Path = "/home/dev/project/cmd/main.go" ∧
    (handleBufferEvent healthyBackend (NewClient DefaultConfig) freshWorld
        (bufferEventMsgOf sampleEvent)).1
      = HandleResult.dispatched
          (promptText "main.go" "go" 3 0 "package main" "text_changed")
          ["code-reviewer", "bug-spotter"]
          [("code-reviewer", promptText "main.go" "go" 3 0 "package main" "text_changed"),
            ("bug-spotter", promptText "main.go" "go" 3 0 "package main" "text_changed")] ∧
    promptText "main.go" "go" 3 0 "package main" "text_changed"
      ≠ promptText sampleEvent.Buffer.Path sampleEvent.Buffer.Filetype
          sampleEvent.Buffer.Cursor.Line sampleEvent.Buffer.Cursor.Col
          sampleEvent.Buffer.Content sampleEvent.Event := by
  decide

/-- C9, amended: once the session is ensured, the prompt built for a decoded event is a fixed
function of the event alone: the template text around the buffer name (the `name` field, not
the `path` field), the file type, the cursor line and column, the file type again, the shaped
content and the event string, ending with the fixed instruction; the same prompt goes to both
agents, and events that differ only in their path get the same prompt. -/
theorem prompt_is_template_of_event {σ : Type} (B : Backend σ) (c : Client) (w : World σ)
    (event : BufferEvent) (hE : (EnsureSession B c w).err = none) :
    ∃ content : String,
      shapedContent (bufferEventMsgOf event) = some content ∧
      (handleBufferEvent B c w (bufferEventMsgOf event)).1
        = HandleResult.dispatched
            (promptText event.Buffer.Name event.Buffer.Filetype event.Buffer.Cursor.Line
              event.Buffer.Cursor.Col content event.Event)
            ["code-reviewer", "bug-spotter"]
            [("code-reviewer", promptText event.Buffer.Name event.Buffer.Filetype
                event.Buffer.Cursor.Line event.Buffer.Cursor.Col content event.Event),
              ("bug-spotter", promptText event.Buffer.Name event.Buffer.Filetype
                event.Buffer.Cursor.Line event.Buffer.Cursor.Col content event.Event)] ∧
      ∀ path : String,
        handleBufferEvent B c w
            (bufferEventMsgOf { event with Buffer := { event.Buffer with Path := path } })
          = handleBufferEvent B c w (bufferEventMsgOf event) := by
  have hs : ∃ content, shapedContent (bufferEventMsgOf event) = some content := by
    by_cases h : (bufferEventMsgOf event).Content.utf8ByteSize ≤ 102400
    · exact ⟨_, (shapedContent_eq _).1 h⟩
    · exact ⟨_, ((shapedContent_eq _).2 (by omega)).trans (truncateAroundCursor_eq _ _ _)⟩
  obtain ⟨content, hc⟩ := hs
  refine ⟨content, hc, ?_, ?_⟩
  · rw [handleBufferEvent_of_content B c w _ content hE hc, buildPrompt_eq]
    rfl
  · intro path
    rfl

/-- Witness of the amended C9: the sample event on the healthy backend. -/
theorem prompt_is_template_of_event_witness :
    (EnsureSession healthyBackend (NewClient DefaultConfig) freshWorld).err = none ∧
    ∃ content : String,
      shapedContent (bufferEventMsgOf sampleEvent) = some content ∧
      (handleBufferEvent healthyBackend (NewClient DefaultConfig) freshWorld
          (bufferEventMsgOf sampleEvent)).1
        = HandleResult.dispatched
            (promptText sampleEvent.Buffer.Name sampleEvent.Buffer.Filetype
              sampleEvent.Buffer.Cursor.Line sampleEvent.Buffer.Cursor.Col content
              sampleEvent.Event)
            ["code-reviewer", "bug-spotter"]
            [("code-reviewer", promptText sampleEvent.Buffer.Name sampleEvent.Buffer.Filetype
                sampleEvent.Buffer.Cursor.Line sampleEvent.Buffer.Cursor.Col content
                sampleEvent.Event),
              ("bug-spotter", promptText sampleEvent.Buffer.Name sampleEvent.Buffer.Filetype
                sampleEvent.Buffer.Cursor.Line sampleEvent.Buffer.Cursor.Col content
                sampleEvent.Event)] ∧
      ∀ path : String,
        handleBufferEvent healthyBackend (NewClient DefaultConfig) freshWorld
            (bufferEventMsgOf
              { sampleEvent with Buffer := { sampleEvent.Buffer with Path := path } })
          = handleBufferEvent healthyBackend (NewClient DefaultConfig) freshWorld
              (bufferEventMsgOf sampleEvent) :=
  ⟨by decide,
    prompt_is_template_of_event healthyBackend (NewClient DefaultConfig) freshWorld sampleEvent
      (by decide)⟩

/-! ## Sending a prompt -/

/-- C11: `SendPrompt` returns an error without any backend call exactly when the held
session id is empty, and then leaves the world as it was; with a non-empty id it makes exactly
one call, a prompt call to the held id and the named agent whose parts are the single text
`prompt`, and returns an error exactly when that call fails; in every case the session id and
the connected flag are unchanged. -/
theorem SendPrompt_contract {σ : Type} (B : Backend σ) (agent prompt : String) (c : Client)
    (w : World σ) :
    (((SendPrompt B agent prompt c w).err ≠ none
        ∧ (SendPrompt B agent prompt c w).world.trace = w.trace) ↔ c.sessionID = "") ∧
    (c.sessionID = "" →
      (SendPrompt B agent prompt c w).err
        = some (GoError.leaf "no session available, call EnsureSession first") ∧
      (SendPrompt B agent prompt c w).world.trace = w.trace ∧
      (SendPrompt B agent prompt c w).world.state = w.state) ∧
    (c.sessionID ≠ "" →
      (SendPrompt B agent prompt c w).world.trace
        = w.trace ++ [Call.sessionPrompt c.sessionID agent [prompt]
            (B.sessionPrompt w.state c.sessionID agent [prompt]).1] ∧
      ((SendPrompt B agent prompt c w).err ≠ none
        ↔ (B.sessionPrompt w.state c.sessionID agent [prompt]).1 ≠ none) ∧
      (∀ e, (B.sessionPrompt w.state c.sessionID agent [prompt]).1 = some e →
        (SendPrompt B agent prompt c w).err.bind GoError.Unwrap = some e)) ∧
    (SendPrompt B agent prompt c w).client.sessionID = c.sessionID ∧
    (SendPrompt B agent prompt c w).client.connected = c.connected := by
  by_cases hid : c.sessionID = ""
  · have hS : SendPrompt B agent prompt c w
        = { err := some (GoError.leaf "no session available, call EnsureSession first")
            client := c, world := w } := by
      simp only [SendPrompt, hid, if_true]
      rfl
    rw [hS]
    refine ⟨⟨fun _ => hid, fun _ => ⟨by simp, rfl⟩⟩, fun _ => ⟨rfl, rfl, rfl⟩,
      fun h => absurd hid h, rfl, rfl⟩
  · cases hr : (B.sessionPrompt w.state c.sessionID agent [prompt]).1 with
    | none =>
      have hS : SendPrompt B agent prompt c w
          = { err := none, client := c
              world := { state := (B.sessionPrompt w.state c.sessionID agent [prompt]).2
                         trace := w.trace
                           ++ [Call.sessionPrompt c.sessionID agent [prompt] none] } } := by
        simp [SendPrompt, hid, World.sessionPrompt, hr]
      rw [hS]
      refine ⟨⟨fun h => absurd rfl h.1, fun h => absurd h hid⟩, fun h => absurd h hid,
        fun _ => ⟨rfl, by simp, by simp⟩, rfl, rfl⟩
    | some e =>
      have hS : SendPrompt B agent prompt c w
          = { err := some (Errorf "failed to send prompt: %w" [FmtArg.err (some e)])
              client := c
              world := { state := (B.sessionPrompt w.state c.sessionID agent [prompt]).2
                         trace := w.trace
                           ++ [Call.sessionPrompt c.sessionID agent [prompt] (some e)] } } := by
        simp [SendPrompt, hid, World.sessionPrompt, hr]
      rw [hS]
      refine ⟨⟨fun h => ?_, fun h => absurd h hid⟩, fun h => absurd h hid,
        fun _ => ⟨rfl, by simp, ?_⟩, rfl, rfl⟩
      · have hlen := congrArg List.length h.2
        simp at hlen
      · intro e2 he2
        cases he2
        rfl

/-- Witness of C11: a client without a session, a client with a session on a backend
that accepts the prompt, and the same client on a backend that rejects it. -/
theorem SendPrompt_contract_witness :
    ((NewClient DefaultConfig).sessionID = "" ∧
      (SendPrompt healthyBackend "code-reviewer" "hello" (NewClient DefaultConfig)
          freshWorld).err
        = some (GoError.leaf "no session available, call EnsureSession first") ∧
      (SendPrompt healthyBackend "code-reviewer" "hello" (NewClient DefaultConfig)
          freshWorld).world.trace = freshWorld.trace ∧
      (SendPrompt healthyBackend "code-reviewer" "hello" (NewClient DefaultConfig)
          freshWorld).world.state = freshWorld.state) ∧
    (liveClient.sessionID ≠ "" ∧
      (SendPrompt failingBackend "code-reviewer" "hello" liveClient freshWorld).world.trace
        = freshWorld.trace ++ [Call.sessionPrompt liveClient.sessionID "code-reviewer" ["hello"]
            (failingBackend.sessionPrompt freshWorld.state liveClient.sessionID
              "code-reviewer" ["hello"]).1] ∧
      ((SendPrompt failingBackend "code-reviewer" "hello" liveClient freshWorld).err ≠ none
        ↔ (failingBackend.sessionPrompt freshWorld.state liveClient.sessionID
              "code-reviewer" ["hello"]).1 ≠ none) ∧
      (∀ e, (failingBackend.sessionPrompt freshWorld.state liveClient.sessionID
              "code-reviewer" ["hello"]).1 = some e →
        (SendPrompt failingBackend "code-reviewer" "hello" liveClient freshWorld).err.bind
          GoError.Unwrap = some e)) ∧
    (SendPrompt healthyBackend "code-reviewer" "hello" liveClient freshWorld).err = none :=
  ⟨⟨rfl, (SendPrompt_contract healthyBackend "code-reviewer" "hello" (NewClient DefaultConfig)
      freshWorld).2.1 rfl⟩,
    ⟨by decide, (SendPrompt_contract failingBackend "code-reviewer" "hello" liveClient
      freshWorld).2.2.1 (by decide)⟩,
    by decide⟩

/-! ## The consumer of the event stream -/

theorem streamLoop_append (c : Client) (pre post : List EventListResponse) :
    streamLoop c (pre ++ post) = streamLoop c pre ++ streamLoop c post := by
  induction pre with
  | nil => simp [streamLoop]
  | cons e es ih => simp [streamLoop, ih]

/-- While a session id is held, the messages sent are those of the loop. -/
theorem SubscribeEvents_sent (c : Client) (hheld : c.sessionID ≠ "")
    (events : List EventListResponse) (streamErr : Option GoError) :
    (SubscribeEvents c events streamErr).2 = streamLoop c events := by
  unfold SubscribeEvents
  rw [if_neg hheld]
  cases streamErr <;> rfl

/-- The messages of a stream with one event singled out. -/
theorem SubscribeEvents_split (c : Client) (hheld : c.sessionID ≠ "")
    (pre post : List EventListResponse) (event : EventListResponse)
    (streamErr : Option GoError) :
    (SubscribeEvents c (pre ++ event :: post) streamErr).2
      = (SubscribeEvents c pre none).2 ++ onStreamEvent c event
        ++ (SubscribeEvents c post none).2 := by
  rw [SubscribeEvents_sent c hheld, SubscribeEvents_sent c hheld, SubscribeEvents_sent c hheld,
    streamLoop_append]
  simp [streamLoop]

/-- C12: while the consumer runs (a session id is held), a session-idle event anywhere in
the stream adds exactly two idle notifications, for `code-reviewer` and then for
`bug-spotter`, when its session id equals the held id, and adds nothing when the ids
differ. -/
theorem SubscribeEvents_idle (c : Client) (hheld : c.sessionID ≠ "")
    (pre post : List EventListResponse) (sessionID : String) (streamErr : Option GoError) :
    (sessionID = c.sessionID →
      (SubscribeEvents c
          (pre ++ { Type_ := EventListResponseType.sessionIdle
                    union := EventUnion.sessionIdle sessionID } :: post) streamErr).2
        = (SubscribeEvents c pre none).2
          ++ [AgentMsg.idle { Agent := "code-reviewer" },
              AgentMsg.idle { Agent := "bug-spotter" }]
          ++ (SubscribeEvents c post none).2) ∧
    (sessionID ≠ c.sessionID →
      (SubscribeEvents c
          (pre ++ { Type_ := EventListResponseType.sessionIdle
                    union := EventUnion.sessionIdle sessionID } :: post) streamErr).2
        = (SubscribeEvents c pre none).2 ++ (SubscribeEvents c post none).2) := by
  constructor
  · intro h
    rw [SubscribeEvents_split c hheld]
    simp [onStreamEvent, h]
  · intro h
    rw [SubscribeEvents_split c hheld]
    simp [onStreamEvent, h]

/-- Witness of C12: an idle event of the held session and one of another session. -/
theorem SubscribeEvents_idle_witness :
    liveClient.sessionID ≠ "" ∧
    ("ses_0001" = liveClient.sessionID ∧
      (SubscribeEvents liveClient
          (sampleStream.take 4 ++ { Type_ := EventListResponseType.sessionIdle
                                    union := EventUnion.sessionIdle "ses_0001" } :: []) none).2
        = (SubscribeEvents liveClient (sampleStream.take 4) none).2
          ++ [AgentMsg.idle { Agent := "code-reviewer" },
              AgentMsg.idle { Agent := "bug-spotter" }]
          ++ (SubscribeEvents liveClient [] none).2) ∧
    ("ses_9999" ≠ liveClient.sessionID ∧
      (SubscribeEvents liveClient
          (sampleStream.take 4 ++ { Type_ := EventListResponseType.sessionIdle
                                    union := EventUnion.sessionIdle "ses_9999" } :: []) none).2
        = (SubscribeEvents liveClient (sampleStream.take 4) none).2
          ++ (SubscribeEvents liveClient [] none).2) :=
  ⟨by decide,
    ⟨rfl, (SubscribeEvents_idle liveClient (by decide) (sampleStream.take 4) [] "ses_0001"
      none).1 rfl⟩,
    ⟨by decide, (SubscribeEvents_idle liveClient (by decide) (sampleStream.take 4) []
      "ses_9999" none).2 (by decide)⟩⟩

/-- C13: while the consumer runs, a message-part-updated event anywhere in the stream adds
exactly one text notification with the delta when the delta is not empty and nothing when it
is empty; the agent of the notification is the value of the source of the part when that
source is an agent source and `unknown` when the source is of another type or missing; and an
event whose type is neither part-updated nor session-idle adds nothing. -/
theorem SubscribeEvents_part_updated (c : Client) (hheld : c.sessionID ≠ "")
    (pre post : List EventListResponse) (part : Part) (delta : String)
    (streamErr : Option GoError) :
    (delta ≠ "" →
      (SubscribeEvents c
          (pre ++ { Type_ := EventListResponseType.messagePartUpdated
                    union := EventUnion.messagePartUpdated part delta } :: post) streamErr).2
        = (SubscribeEvents c pre none).2
          ++ [AgentMsg.text { Agent := extractAgentName part, Text := delta }]
          ++ (SubscribeEvents c post none).2) ∧
    (delta = "" →
      (SubscribeEvents c
          (pre ++ { Type_ := EventListResponseType.messagePartUpdated
                    union := EventUnion.messagePartUpdated part delta } :: post) streamErr).2
        = (SubscribeEvents c pre none).2 ++ (SubscribeEvents c post none).2) ∧
    (∀ value : String, part.Source = some (PartSource.agentPartSource value) →
      extractAgentName part = value) ∧
    (part.Source = some PartSource.otherSource → extractAgentName part = "unknown") ∧
    (part.Source = none → extractAgentName part = "unknown") ∧
    (∀ union : EventUnion,
      (SubscribeEvents c
          (pre ++ { Type_ := EventListResponseType.otherType, union := union } :: post)
          streamErr).2
        = (SubscribeEvents c pre none).2 ++ (SubscribeEvents c post none).2) := by
  refine ⟨?_, ?_, ?_, ?_, ?_, ?_⟩
  · intro h
    rw [SubscribeEvents_split c hheld]
    simp [onStreamEvent, h]
  · intro h
    rw [SubscribeEvents_split c hheld]
    simp [onStreamEvent, h]
  · intro value h
    simp [extractAgentName, h]
  · intro h
    simp [extractAgentName, h]
  · intro h
    simp [extractAgentName, h]
  · intro union
    rw [SubscribeEvents_split c hheld]
    simp [onStreamEvent]

/-- Witness of C13: a part update of the reviewer after an idle event. -/
theorem SubscribeEvents_part_updated_witness :
    liveClient.sessionID ≠ "" ∧ "Looks fine." ≠ "" ∧
    reviewerPart.Source = some (PartSource.agentPartSource "code-reviewer") ∧
    (SubscribeEvents liveClient
        (sampleStream.drop 5 ++ { Type_ := EventListResponseType.messagePartUpdated
                                  union := EventUnion.messagePartUpdated reviewerPart
                                    "Looks fine." } :: sampleStream.take 3) none).2
      = (SubscribeEvents liveClient (sampleStream.drop 5) none).2
        ++ [AgentMsg.text { Agent := extractAgentName reviewerPart, Text := "Looks fine." }]
        ++ (SubscribeEvents liveClient (sampleStream.take 3) none).2 ∧
    extractAgentName reviewerPart = "code-reviewer" :=
  ⟨by decide, by decide, rfl,
    (SubscribeEvents_part_updated liveClient (by decide) (sampleStream.drop 5)
      (sampleStream.take 3) reviewerPart "Looks fine." none).1 (by decide),
    (SubscribeEvents_part_updated liveClient (by decide) (sampleStream.drop 5)
      (sampleStream.take 3) reviewerPart "Looks fine." none).2.2.1 "code-reviewer" rfl⟩

/-! ## Index safety of `truncateAroundCursor` -/

/-- C14: for every content, every integer cursor line and every window, the start index is
at least 0, the end index is at most the number of lines, every index from the start index up
to the end index is the index of a line, and `truncateAroundCursor` returns a text. -/
theorem truncateAroundCursor_indices_in_range (content : String) (c w : Int) :
    0 ≤ windowStart c w ∧
    windowStop c w (stringsSplit content).length ≤ (stringsSplit content).length ∧
    (∀ i : Int, windowStart c w ≤ i → i < windowStop c w (stringsSplit content).length →
      0 ≤ i ∧ i < (stringsSplit content).length ∧
      ∃ l, lineAt (stringsSplit content) i = some l) ∧
    ∃ out, truncateAroundCursor content c w = some out := by
  have hs := windowStart_nonneg c w
  have he := windowStop_le c w (stringsSplit content).length
  refine ⟨hs, he, ?_, _, truncateAroundCursor_eq content c w⟩
  intro i h1 h2
  have hidx : i.toNat < (stringsSplit content).length := by omega
  refine ⟨by omega, by omega, (stringsSplit content).get ⟨i.toNat, hidx⟩, ?_⟩
  have h0 : 0 ≤ i := by omega
  simp [lineAt, h0, List.getElem?_eq_getElem hidx]

/-! ## The identifiers of the agents in the interface -/

/-- C15: with the model made by `NewModel`, after the window size and one text from each
agent under the names `code-reviewer` and `bug-spotter`, the names under which the thinking
flags are set, the prompts addressed and the idle notifications sent, the texts are stored
under these names and both cards of the view show an empty output: the view reads the
outputs under `code_reviewer` and `bug_spotter`. -/
theorem View_reads_outputs_under_other_keys :
    (∃ m : Model,
      updateAll healthyBackend agentTexts NewModel freshWorld = some m ∧
      GoMap.get "" m.agents "code-reviewer" = "Looks fine." ∧
      GoMap.get "" m.agents "bug-spotter" = "Possible nil dereference." ∧
      GoMap.get "" m.agents "code_reviewer" = "" ∧
      GoMap.get "" m.agents "bug_spotter" = "" ∧
      View m = some (ViewResult.screen
        { reviewerCard :=
            { Name := "Code Reviewer", Emoji := "🔍", Output := "", Thinking := false }
          bugSpotterCard :=
            { Name := "Bug Spotter", Emoji := "🐛", Output := "", Thinking := false }
          summaryBar :=
            { Filename := "", Filetype := "", CursorLine := 0, CursorCol := 0
              LineCount := 0, LastEvent := "" }
          nvimConnected := false, openCodeConnected := false
          sessionInfo := SessionInfo.noSession, lastError := "" })) ∧
    (∃ prompt : String,
      (handleBufferEvent healthyBackend (NewClient DefaultConfig) freshWorld
          (bufferEventMsgOf sampleEvent)).1
        = HandleResult.dispatched prompt ["code-reviewer", "bug-spotter"]
            [("code-reviewer", prompt), ("bug-spotter", prompt)]) ∧
    onStreamEvent liveClient
        { Type_ := EventListResponseType.sessionIdle
          union := EventUnion.sessionIdle "ses_0001" }
      = [AgentMsg.idle { Agent := "code-reviewer" }, AgentMsg.idle { Agent := "bug-spotter" }] := by
  refine ⟨⟨_, rfl, by decide, by decide, by decide, by decide, by decide⟩, ⟨_, rfl⟩, by decide⟩

end Algopeeps
